import Mathlib

/-!
Verification development for the physics body synchronization and
compound-collider management layer of the Basic-3D-Game-Engine repository.

The embedding models the JavaScript sources directly:
  * `src/physics/PhysicsWorld.js` — the `PhysicsWorld` class (body registry,
    body construction, the per-step copy of body transforms onto visuals);
  * `src/store/sceneStore.js` — `updatePhysicsProperties` and
    `activateAllPhysicsBodies`;
  * the play-session store (`usePlayStore`: `play`, `stop`);
  * the collision-shape auto-detection module
    (`autoDetectCollisionShape`, `detectPrimitiveShape`, `isBox`,
    `isSphere`, `isCylinder`, `getCircleRadius`);
  * `src/components/AdvancedCharacterController.jsx` — the per-tick update.

Modelling conventions:
  * JavaScript numbers are modelled as exact rationals (`ℚ`); the handful of
    places where the source calls `Math.sqrt` / `Math.sin` / `Math.cos` /
    `Math.atan2` take those functions as explicit parameters (`jsSqrt`, …),
    so every definition stays executable and theorems hold for every choice
    of those functions unless stated otherwise; the trigonometric quaternion
    construction for compound child shapes (claim C5) is modelled over `ℝ`
    with `Real.sin` / `Real.cos`, where exact values are needed.
  * `undefined`/`null`-able fields are `Option`s; the JavaScript `x || d`
    idiom on numbers (which also replaces `0`) and the `x ?? d` idiom (which
    does not) get separate model functions `jsOrOne` / `jsNullishOne`.
  * Object identity (`threeObject`, keyed by `uuid`) is a natural number;
    name-based tests on three.js objects (`Ground`/`plane` substring match,
    the `DemoCube` fallback in `stop()`) are modelled as precomputed boolean
    attributes of the scene object, since they only inspect external
    three.js names.
  * The `CANNON.World` body list and the `bodies` `Map` of `PhysicsWorld`
    are association lists; `Map.set` / `Map.delete` semantics are modelled
    exactly (in-place overwrite of an existing key, append otherwise).
-/

/-- Rational 3-vector, modelling three.js `Vector3` / cannon-es `Vec3` data. -/
structure Vec3 where
  x : ℚ
  y : ℚ
  z : ℚ
deriving DecidableEq, Repr

/-- Quaternion as plain copied data (the play/step layers only copy
quaternions around; the trigonometric construction lives in the `ℝ`-valued
`QuatR` below). -/
structure Quat4 where
  qx : ℚ
  qy : ℚ
  qz : ℚ
  qw : ℚ
deriving DecidableEq, Repr

/-- Identity quaternion `(0,0,0,1)`, as set by
`body.quaternion.set(0, 0, 0, 1)` for ground objects. -/
def Quat4.identity : Quat4 := ⟨0, 0, 0, 1⟩

/-- Cannon body kinds (`CANNON.Body.DYNAMIC/STATIC/KINEMATIC`). -/
inductive BodyKind where
  | dynamic
  | static
  | kinematic
deriving DecidableEq, Repr

/-- The `type` strings accepted by `PhysicsWorld.addBody`'s `switch`. -/
inductive BodyType where
  | box
  | sphere
  | plane
  | cylinder
  | capsule
  | trimesh
  | convex
  | platform
  | solidPlatform
  | compound
deriving DecidableEq, Repr

/-- Frame shape kinds handled by the compound child-shape `switch`
(`box`, `sphere`, `capsule`; anything else hits the `default` branch). -/
inductive FrameType where
  | box
  | sphere
  | capsule
  | other
deriving DecidableEq, Repr

/-- A user-authored collision frame as consumed by `PhysicsWorld.addBody`'s
compound path (`frame.type`, `frame.size`, `frame.radius`, `frame.position`,
`frame.rotation` in degrees); optional fields model the `?.`/`||` defaults. -/
structure CollisionFrame where
  ftype : FrameType
  fsize : Option Vec3 := none
  fradius : Option ℚ := none
  fposition : Option Vec3 := none
  frotation : Option Vec3 := none
deriving DecidableEq, Repr

/-- The `bodyOptions` argument of `PhysicsWorld.addBody`, with the
destructuring defaults of the source (`type = 'box'`, `mass = 1`,
`size = {x:1,y:1,z:1}` — `size` kept as an `Option` so that an absent value
is distinguishable, resolved by `BodyOptions.sizeD`).  The `material`,
`mesh` and `collisionMesh` options only feed the external simulator/three.js
and are not modelled; `frameRotation` is omitted because no caller in the
repository passes it. -/
structure BodyOptions where
  type : BodyType := .box
  mass : ℚ := 1
  size : Option Vec3 := none
  radius : Option ℚ := none
  height : Option ℚ := none
  isCharacter : Bool := false
  isStatic : Bool := false
  isTrigger : Bool := false
  offset : Option Vec3 := none
  frameOffset : Option Vec3 := none
  frames : List CollisionFrame := []
deriving DecidableEq, Repr

/-- Resolved `size` with the destructuring default `{x:1, y:1, z:1}`. -/
def BodyOptions.sizeD (o : BodyOptions) : Vec3 := o.size.getD ⟨1, 1, 1⟩

/-- A three.js scene object as seen by the physics layer: identity,
`type === 'Mesh'` test, skinned-mesh test, the name-based predicates used by
`addBody` (ground/plane names) and `stop()` (the `DemoCube` fallback),
world transform data, and the `userData` snapshot fields written by
`play()`/`stop()`. -/
structure SceneObject where
  uuid : ℕ
  isMeshObj : Bool := true
  hasSkinned : Bool := false
  nameIsGround : Bool := false
  nameIsDemoCube : Bool := false
  position : Vec3 := ⟨0, 0, 0⟩
  rotation : Vec3 := ⟨0, 0, 0⟩
  quaternion : Quat4 := Quat4.identity
  worldScale : Vec3 := ⟨1, 1, 1⟩
  originalPosition : Option Vec3 := none
  originalRotation : Option Vec3 := none
  userVelocity : Vec3 := ⟨0, 0, 0⟩
deriving DecidableEq, Repr

/-- A created cannon rigid body: fresh identity `bid`, the options it was
built from, and the fields `addBody` computes (`mass`, final `type`,
initial position/orientation).  Damping/sleep tuning and contact materials
only feed the external simulator and are not modelled. -/
structure Body where
  bid : ℕ
  opts : BodyOptions
  kind : BodyKind
  mass : ℚ
  position : Vec3
  quaternion : Quat4
  velocity : Vec3 := ⟨0, 0, 0⟩
deriving DecidableEq, Repr

/-- The mass passed to the `CANNON.Body` constructor:
`isStatic ? 0 : (isPlatform ? 0 : isSolidPlatform ? 0 : mass)`. -/
def builtMass (o : BodyOptions) : ℚ :=
  if o.isStatic then 0
  else if o.type = .platform then 0
  else if o.type = .solidPlatform then 0
  else o.mass

/-- The final body kind after `addBody`'s adjustments, in source order:
constructor kind `isStatic ? STATIC : DYNAMIC`, then the platform block sets
`KINEMATIC`, then the explicit-trigger block sets `KINEMATIC`, then the
solid-platform block sets `STATIC`. -/
def builtKind (o : BodyOptions) : BodyKind :=
  let k0 : BodyKind := if o.isStatic then .static else .dynamic
  let k1 : BodyKind := if o.type = .platform then .kinematic else k0
  let k2 : BodyKind := if o.isTrigger then .kinematic else k1
  if o.type = .solidPlatform then .static else k2

/-- Componentwise vector sum (the `body.position.x += offset.x` updates). -/
def Vec3.add (a b : Vec3) : Vec3 := ⟨a.x + b.x, a.y + b.y, a.z + b.z⟩

/-- Initial body position: the object's position, then the auto-detection
`offset` (if any), then the manual `frameOffset` (if any). -/
def builtPosition (obj : SceneObject) (o : BodyOptions) : Vec3 :=
  let p := obj.position
  let p := match o.offset with
    | some off => p.add off
    | none => p
  match o.frameOffset with
  | some fo => p.add fo
  | none => p

/-- Initial body orientation: ground-named static objects are forced to the
identity quaternion; all other bodies copy the object's quaternion. -/
def builtQuaternion (obj : SceneObject) (o : BodyOptions) : Quat4 :=
  if obj.nameIsGround ∧ o.isStatic then Quat4.identity else obj.quaternion

/-- Association-list lookup keyed by object uuid (`Map.get`). -/
def lookupBody : List (ℕ × Body) → ℕ → Option Body
  | [], _ => none
  | (k, v) :: rest, u => if k = u then some v else lookupBody rest u

/-- `Map.set` semantics: overwrite in place if the key exists, else append. -/
def setEntry : List (ℕ × Body) → ℕ → Body → List (ℕ × Body)
  | [], u, b => [(u, b)]
  | (k, v) :: rest, u, b =>
      if k = u then (u, b) :: rest else (k, v) :: setEntry rest u b

/-- `Map.delete` semantics: drop the entry for the key, if present. -/
def removeEntry : List (ℕ × Body) → ℕ → List (ℕ × Body)
  | [], _ => []
  | (k, v) :: rest, u => if k = u then rest else (k, v) :: removeEntry rest u

/-- State of a `PhysicsWorld` instance: the enabled flag, the
`bodies : Map<threeObject, body>` registry, the bodies currently added to
the `CANNON.World`, and a counter giving fresh identities to created
bodies. -/
structure PhysicsWorld where
  enabled : Bool := false
  bodies : List (ℕ × Body) := []
  worldBodies : List Body := []
  nextId : ℕ := 0
deriving DecidableEq, Repr

/-- The freshly constructed `PhysicsWorld` (`new PhysicsWorld()`). -/
def PhysicsWorld.init : PhysicsWorld := {}

/-- `PhysicsWorld.addBody(threeObject, bodyOptions)`: builds one body from
the options, adds it to the simulator world (`world.addBody`), stores it in
the registry (`bodies.set`, attaching it to the object's `userData`), and
returns it.  Note: the source never looks up or removes a pre-existing body
for the object. -/
def PhysicsWorld.addBody (st : PhysicsWorld) (obj : SceneObject)
    (o : BodyOptions) : PhysicsWorld × Body :=
  let body : Body :=
    { bid := st.nextId
      opts := o
      kind := builtKind o
      mass := builtMass o
      position := builtPosition obj o
      quaternion := builtQuaternion obj o }
  ({ st with
      worldBodies := st.worldBodies ++ [body]
      bodies := setEntry st.bodies obj.uuid body
      nextId := st.nextId + 1 }, body)

/-- `PhysicsWorld.removeBody(threeObject)`: if a body is registered for the
object, remove it from the simulator world and delete the registry entry;
otherwise do nothing. -/
def PhysicsWorld.removeBody (st : PhysicsWorld) (uuid : ℕ) : PhysicsWorld :=
  match lookupBody st.bodies uuid with
  | none => st
  | some b =>
      { st with
          worldBodies := st.worldBodies.filter (fun x => x.bid ≠ b.bid)
          bodies := removeEntry st.bodies uuid }

/-- `PhysicsWorld.getBody(threeObject)`. -/
def PhysicsWorld.getBody (st : PhysicsWorld) (uuid : ℕ) : Option Body :=
  lookupBody st.bodies uuid

/-- `PhysicsWorld.clear()`: removes every registered body from the world and
empties the registry. -/
def PhysicsWorld.clear (st : PhysicsWorld) : PhysicsWorld :=
  { st with
      bodies := []
      worldBodies := st.worldBodies.filter
        (fun x => (st.bodies.map (fun e => e.2.bid)).contains x.bid = false) }

/-- Squared distance between two points.  The source gate in
`PhysicsWorld.step` is `threeObject.position.distanceTo(body.position) >
0.001` with `distanceTo = sqrt(Σ dᵢ²)`; since both sides are nonnegative
this is exactly `Σ dᵢ² > 0.001²`, the form used here to stay in `ℚ`
(`sq_gate_equiv` below proves the equivalence over `ℝ`). -/
def distSq (a b : Vec3) : ℚ :=
  (a.x - b.x) ^ 2 + (a.y - b.y) ^ 2 + (a.z - b.z) ^ 2

/-- Squared form of the step gate threshold `0.001`. -/
def epsilonSq : ℚ := 1 / 1000000

/-- Justification for phrasing the step gate on squared distances: for a
nonnegative radicand, `Real.sqrt s > 1/1000 ↔ s > (1/1000)^2`. -/
theorem sq_gate_equiv (s : ℝ) :
    Real.sqrt s > 1 / 1000 ↔ s > (1 / 1000 : ℝ) ^ 2 := by
  have := Real.lt_sqrt (x := (1 / 1000 : ℝ)) (y := s) (by norm_num)
  simpa [gt_iff_lt] using this

/-- The body→visual copy performed for one registry entry inside
`PhysicsWorld.step` after the simulator step: skipped entirely for `STATIC`
bodies; for any other body, if the positional delta exceeds `0.001` then
both the position and the quaternion are copied onto the three.js object,
otherwise the object is untouched. -/
def syncObject (body : Body) (obj : SceneObject) : SceneObject :=
  if body.kind = .static then obj
  else if distSq obj.position body.position > epsilonSq then
    { obj with position := body.position, quaternion := body.quaternion }
  else obj

/-- A concrete visual object used in closed counterexamples. -/
def demoObj : SceneObject := { uuid := 0 }

/-- Concrete first `bodyOptions` (`optsA`) for the duplicate-`add` run. -/
def optsA : BodyOptions := { mass := 1 }

/-- Concrete second `bodyOptions` (`optsB`) for the duplicate-`add` run. -/
def optsB : BodyOptions := { mass := 2 }

/-- State after `addBody(demoObj, optsA)` from a fresh world. -/
def stateA : PhysicsWorld × Body := PhysicsWorld.init.addBody demoObj optsA

/-- State after the second call `addBody(demoObj, optsB)`. -/
def stateB : PhysicsWorld × Body := stateA.1.addBody demoObj optsB

/-- C1 (counterexample): calling `addBody(obj, optsA)` then
`addBody(obj, optsB)` does NOT remove the first body from the simulator
world: afterwards the world holds two bodies — the `optsA` body is still
present — refuting that exactly one rigid body for `obj` is present in the
world. -/
theorem addBody_twice_leaves_old_body_in_world_cex :
    stateB.1.worldBodies.length = 2 ∧
    stateA.2 ∈ stateB.1.worldBodies ∧
    stateA.2.opts = optsA ∧
    ¬ stateB.1.worldBodies.length = 1 := by
  refine ⟨by decide, by decide, by decide, by decide⟩

/-- C1 (amended): `addBody` never removes a pre-existing body.  After
`addBody(obj, optsA); addBody(obj, optsB)` from a fresh world, the registry
maps `obj` to exactly one body, the one built from `optsB`, but the
simulator world retains both created bodies (the `optsA` body is not
removed). -/
theorem addBody_twice_registry_single_world_double
    (obj : SceneObject) (oA oB : BodyOptions) :
    let s1 := PhysicsWorld.init.addBody obj oA
    let s2 := s1.1.addBody obj oB
    s2.1.bodies = [(obj.uuid, s2.2)] ∧
    s2.2.opts = oB ∧
    s2.1.worldBodies = [s1.2, s2.2] ∧
    s1.2.opts = oA := by
  simp [PhysicsWorld.addBody, PhysicsWorld.init, setEntry]

/-- Per-object physics configuration as stored by the scene store
(`objectData.physics`): `enabled`, `isStatic`, `isTrigger`, the stored
`mass` (possibly absent), the selected `bodyType`, the stored `size`
(possibly absent), and the `autoCreate` request (`'convex' | 'trimesh'` in
the UI, `null` when not requested). -/
structure PhysicsProps where
  enabled : Bool := false
  isStatic : Bool := false
  isTrigger : Bool := false
  mass : Option ℚ := some 1
  bodyType : BodyType := .box
  size : Option Vec3 := some ⟨1, 1, 1⟩
  autoCreate : Option BodyType := none
deriving DecidableEq, Repr

/-- A scene-store record (`objectData`): the optional physics block, the
authored collision frames, and the player flag. -/
structure ObjectData where
  physics : Option PhysicsProps := none
  collisionFrames : List CollisionFrame := []
  isPlayer : Bool := false
deriving DecidableEq, Repr

/-- JavaScript `m || 1` on a stored number: replaces both a missing value
and `0` by the default `1`. -/
def jsOrOne : Option ℚ → ℚ
  | none => 1
  | some m => if m = 0 then 1 else m

/-- JavaScript `m ?? 1` on a stored number: replaces only a missing value;
`0` passes through. -/
def jsNullishOne : Option ℚ → ℚ
  | none => 1
  | some m => m

/-- The mass computed by `play()` before body creation:
`objectData.physics.isStatic ? 0 : (objectData.physics.mass || 1)`. -/
def playMass (p : PhysicsProps) : ℚ :=
  if p.isStatic then 0 else jsOrOne p.mass

/-- The `bodyOptions` built by `updatePhysicsProperties` when creating or
recreating a body (`type` resolution including the `autoCreate` override
and the skinned-mesh trimesh→convex downgrade, `mass: physicsProps.mass ??
1`, `size`, flags). -/
def updatePhysicsBodyOptions (obj : SceneObject) (p : PhysicsProps)
    (useCollisionMesh : Bool) : BodyOptions :=
  let requested : BodyType :=
    match p.autoCreate with
    | some t => t
    | none => if useCollisionMesh then .trimesh else p.bodyType
  let requested :=
    if obj.hasSkinned ∧ requested = .trimesh then .convex else requested
  { type := requested
    mass := jsNullishOne p.mass
    size := some (p.size.getD ⟨1, 1, 1⟩)
    isTrigger := p.isTrigger
    isStatic := p.isStatic }

/-- Result record of the collision-shape auto-detection module
(`{ type, size?, radius?, height?, offset?, mesh? }`); the `mesh` back
reference is modelled as a flag. -/
structure ShapeInfo where
  type : BodyType := .box
  size : Option Vec3 := none
  radius : Option ℚ := none
  height : Option ℚ := none
  offset : Option Vec3 := none
  meshRef : Bool := false
deriving DecidableEq, Repr

/-- Whole-application state touched by the play-session store: the scene
store's `objects` map (iterated in insertion order), the three.js scene,
the shared `PhysicsWorld`, and the play flags. -/
structure GameState where
  objects : List (ℕ × ObjectData) := []
  scene : List SceneObject := []
  phys : PhysicsWorld := {}
  isPlaying : Bool := false
  isPaused : Bool := false
  suppressCollisionFrameUpdates : Bool := false
deriving DecidableEq, Repr

/-- Scene lookup by uuid (`scene.traverse` / `getObjectByProperty`). -/
def findObj (scene : List SceneObject) (uuid : ℕ) : Option SceneObject :=
  scene.find? (fun o => o.uuid = uuid)

/-- The `userData.originalPosition` / `userData.originalRotation` snapshot
written by `play()` before any body creation. -/
def snapOriginal (o : SceneObject) : SceneObject :=
  { o with originalPosition := some o.position
           originalRotation := some o.rotation }

/-- Writes the original-transform snapshot onto the scene object with the
given uuid. -/
def snapScene (scene : List SceneObject) (uuid : ℕ) : List SceneObject :=
  scene.map fun o => if o.uuid = uuid then snapOriginal o else o

/-- Primitive side effects of `play()` in execution order, used to state
the body-creation / `isPlaying` ordering guarantee. -/
inductive Ev where
  | addBody (uuid : ℕ) (o : BodyOptions)
  | removeBody (uuid : ℕ)
  | setEnabled (b : Bool)
  | setPlaying (b : Bool)
deriving DecidableEq, Repr

/-- Events that manipulate bodies (as opposed to flag writes). -/
def Ev.isBody : Ev → Bool
  | .addBody _ _ => true
  | .removeBody _ => true
  | _ => false

/-- One iteration of `play()`'s main loop over the store's `objects` map,
for the entry `(uuid, data)`: skip unless physics is enabled and the
three.js object is found; snapshot the original transform; then
  * mesh with manual frames: remove any existing body and build one
    compound body from the frames;
  * mesh without frames but with an explicit `autoCreate` request: run
    character or generic auto-detection, remove any existing body, apply
    the skinned-mesh trimesh→convex downgrade, and build the body (with the
    detected offset);
  * mesh without frames and without `autoCreate`: skip silently;
  * Group/GLTF root with manual frames: no body;
  * Group/GLTF root with `autoCreate`: auto-detect, remove any existing
    body, downgrade trimesh→convex unconditionally, build (no offset);
  * Group/GLTF root otherwise: skip.
Returns the new state and the body events performed. -/
def playProcessObject (detect detectChar : SceneObject → ShapeInfo)
    (uuid : ℕ) (data : ObjectData) (g : GameState) : GameState × List Ev :=
  match data.physics with
  | none => (g, [])
  | some p =>
    if p.enabled then
      match findObj g.scene uuid with
      | none => (g, [])
      | some tobj =>
        if tobj.isMeshObj then
          let g1 := { g with scene := snapScene g.scene uuid }
          if data.collisionFrames ≠ [] then
            let o : BodyOptions :=
              { type := .compound
                mass := playMass p
                isCharacter := data.isPlayer
                isStatic := p.isStatic
                frames := data.collisionFrames }
            let g2 := { g1 with phys := g1.phys.removeBody uuid }
            ({ g2 with phys := (g2.phys.addBody tobj o).1 },
              [.removeBody uuid, .addBody uuid o])
          else
            match p.autoCreate with
            | some _ =>
                let si := if data.isPlayer then detectChar tobj else detect tobj
                let o0 : BodyOptions :=
                  { type := si.type
                    mass := playMass p
                    size := si.size
                    radius := si.radius
                    height := si.height
                    offset := si.offset
                    isCharacter := data.isPlayer
                    isStatic := p.isStatic }
                let g2 := { g1 with phys := g1.phys.removeBody uuid }
                let o := if tobj.hasSkinned ∧ o0.type = .trimesh then
                    { o0 with type := .convex }
                  else o0
                ({ g2 with phys := (g2.phys.addBody tobj o).1 },
                  [.removeBody uuid, .addBody uuid o])
            | none => (g1, [])
        else
          let g1 := { g with scene := snapScene g.scene uuid }
          if data.collisionFrames ≠ [] then (g1, [])
          else
            match p.autoCreate with
            | some _ =>
                let si := if data.isPlayer then detectChar tobj else detect tobj
                let o0 : BodyOptions :=
                  { type := si.type
                    mass := playMass p
                    size := si.size
                    radius := si.radius
                    height := si.height
                    isCharacter := data.isPlayer
                    isStatic := p.isStatic }
                let g2 := { g1 with phys := g1.phys.removeBody uuid }
                let o := if o0.type = .trimesh then { o0 with type := .convex }
                  else o0
                ({ g2 with phys := (g2.phys.addBody tobj o).1 },
                  [.removeBody uuid, .addBody uuid o])
            | none => (g1, [])
    else (g, [])

/-- The `objects.forEach` of `play()`'s main loop. -/
def playLoop (detect detectChar : SceneObject → ShapeInfo) :
    List (ℕ × ObjectData) → GameState → GameState × List Ev
  | [], g => (g, [])
  | (uuid, data) :: rest, g =>
      let r1 := playProcessObject detect detectChar uuid data g
      let r2 := playLoop detect detectChar rest r1.1
      (r2.1, r1.2 ++ r2.2)

/-- One iteration of `activateAllPhysicsBodies`: for a store entry with
physics enabled whose three.js object is found and is a `Mesh`, if no body
is registered yet, create one from the stored configuration
(`bodyType || 'box'`, `mass || 1`, `size || {1,1,1}`); never touches
auto-detection. -/
def activateObject (uuid : ℕ) (data : ObjectData) (g : GameState) :
    GameState × List Ev :=
  match data.physics with
  | none => (g, [])
  | some p =>
    if p.enabled then
      match findObj g.scene uuid with
      | none => (g, [])
      | some tobj =>
        if tobj.isMeshObj then
          match lookupBody g.phys.bodies uuid with
          | none =>
              let o : BodyOptions :=
                { type := p.bodyType
                  mass := jsOrOne p.mass
                  size := some (p.size.getD ⟨1, 1, 1⟩) }
              ({ g with phys := (g.phys.addBody tobj o).1 },
                [.addBody uuid o])
          | some _ => (g, [])
        else (g, [])
    else (g, [])

/-- The `objects.forEach` of `activateAllPhysicsBodies`. -/
def activateLoop : List (ℕ × ObjectData) → GameState → GameState × List Ev
  | [], g => (g, [])
  | (uuid, data) :: rest, g =>
      let r1 := activateObject uuid data g
      let r2 := activateLoop rest r1.1
      (r2.1, r1.2 ++ r2.2)

/-- `usePlayStore.play()`: suppress collision-frame writes, run the main
body-creation loop, re-allow frame writes, run the
`activateAllPhysicsBodies` safeguard, enable the physics world, and only
then set `isPlaying := true` (and clear `isPaused`).  The returned event
list records the order of the side effects. -/
def play (detect detectChar : SceneObject → ShapeInfo) (g : GameState) :
    GameState × List Ev :=
  let g0 := { g with suppressCollisionFrameUpdates := true }
  let r1 := playLoop detect detectChar g0.objects g0
  let g1 := { r1.1 with suppressCollisionFrameUpdates := false }
  let r2 := activateLoop g1.objects g1
  let g2 := { r2.1 with phys := { r2.1.phys with enabled := true } }
  let g3 := { g2 with isPlaying := true, isPaused := false }
  (g3, r1.2 ++ r2.2 ++ [.setEnabled true, .setPlaying true])

/-- The transform reset applied by `stop()` to one physics-enabled mesh
object after its body is removed: restore the snapshot when present
(rotation falling back to zero); otherwise the `DemoCube` objects jump to
`(0,5,0)` and anything else is clamped to `y ≥ 3` with zeroed rotation.
The `userData.velocity` reset applies in every branch. -/
def stopRestore (tobj : SceneObject) : SceneObject :=
  match tobj.originalPosition with
  | some op =>
      { tobj with
          position := op
          rotation := tobj.originalRotation.getD ⟨0, 0, 0⟩
          userVelocity := ⟨0, 0, 0⟩ }
  | none =>
      if tobj.nameIsDemoCube then
        { tobj with
            position := ⟨0, 5, 0⟩
            rotation := ⟨0, 0, 0⟩
            userVelocity := ⟨0, 0, 0⟩ }
      else
        { tobj with
            position := { tobj.position with y := max tobj.position.y 3 }
            rotation := ⟨0, 0, 0⟩
            userVelocity := ⟨0, 0, 0⟩ }

/-- Applies `stopRestore` to the scene object with the given uuid. -/
def restoreScene (scene : List SceneObject) (uuid : ℕ) : List SceneObject :=
  scene.map fun o => if o.uuid = uuid then stopRestore o else o

/-- One iteration of `stop()`'s reset loop: objects with physics enabled
whose three.js object is found AND is a `Mesh` get their body removed and
their transform restored; Group/GLTF roots (and missing objects) are left
untouched — bodies registered for them survive. -/
def stopProcessObject (uuid : ℕ) (data : ObjectData) (g : GameState) :
    GameState :=
  match data.physics with
  | none => g
  | some p =>
    if p.enabled then
      match findObj g.scene uuid with
      | none => g
      | some tobj =>
        if tobj.isMeshObj then
          let g1 := { g with phys := g.phys.removeBody uuid }
          { g1 with scene := restoreScene g1.scene uuid }
        else g
    else g

/-- The `objects.forEach` of `stop()`'s reset loop. -/
def stopLoop : List (ℕ × ObjectData) → GameState → GameState
  | [], g => g
  | (uuid, data) :: rest, g => stopLoop rest (stopProcessObject uuid data g)

/-- `usePlayStore.stop()`: clear the play flags, disable the physics world,
then run the per-object reset loop. -/
def stop (g : GameState) : GameState :=
  let g0 := { g with isPlaying := false, isPaused := false }
  let g1 := { g0 with phys := { g0.phys with enabled := false } }
  stopLoop g1.objects g1

/-- `usePlayStore.pause()`: when playing, set `isPaused` and disable the
physics world, keeping all bodies. -/
def pause (g : GameState) : GameState :=
  if g.isPlaying then
    { g with isPaused := true, phys := { g.phys with enabled := false } }
  else g

/-- `usePlayStore.resume()`: clear `isPaused` and re-enable the world. -/
def resume (g : GameState) : GameState :=
  { g with isPaused := false, phys := { g.phys with enabled := true } }

/-- A physics configuration with `isStatic = false` and an explicit stored
mass of `0`, as enterable through the inspector. -/
def zeroMassProps : PhysicsProps :=
  { enabled := true, isStatic := false, mass := some 0 }

/-- A mesh object used for the mass-normalization run. -/
def massObj : SceneObject := { uuid := 6 }

/-- The body created when `updatePhysicsProperties` enables physics with
`zeroMassProps`. -/
def zeroMassBody : Body :=
  (PhysicsWorld.init.addBody massObj
    (updatePhysicsBodyOptions massObj zeroMassProps false)).2

/-- C6 (counterexample): `updatePhysicsProperties` builds its `bodyOptions`
with `mass: physicsProps.mass ?? 1`, so a configured mass of `0` with
`isStatic = false` is NOT corrected: the created body is `DYNAMIC` with
mass `0`, refuting that every non-static zero-mass configuration is
normalized to a positive mass before body creation. -/
theorem updatePhysicsProperties_zero_mass_cex :
    zeroMassBody.mass = 0 ∧
    zeroMassBody.kind = .dynamic ∧
    ¬ 0 < zeroMassBody.mass := by
  refine ⟨by decide, by decide, by decide⟩

/-- C6 (amended): `isStatic = true` always yields a created body of mass
`0`; the `play()` path corrects a stored zero mass to the positive default
`1` via `mass || 1`; but the `updatePhysicsProperties` path uses
`mass ?? 1`, which lets a configured `0` through unchanged. -/
theorem mass_normalization_amended (obj : SceneObject) (st : PhysicsWorld)
    (o : BodyOptions) (p : PhysicsProps) :
    (o.isStatic = true → ((st.addBody obj o).2).mass = 0) ∧
    (p.isStatic = false → p.mass = some 0 →
      playMass p = 1 ∧ 0 < playMass p) ∧
    (p.mass = some 0 →
      (updatePhysicsBodyOptions obj p false).mass = 0) := by
  refine ⟨fun hs => ?_, fun hs hm => ?_, fun hm => ?_⟩
  · simp [PhysicsWorld.addBody, builtMass, hs]
  · simp [playMass, hs, hm, jsOrOne]
  · simp [updatePhysicsBodyOptions, hm, jsNullishOne]

/-- C6 (witness): the amended statement evaluated at a static option record
and at the zero-mass configuration. -/
theorem mass_normalization_amended_witness :
    ((PhysicsWorld.init.addBody massObj { isStatic := true }).2).mass = 0 ∧
    playMass zeroMassProps = 1 ∧
    (updatePhysicsBodyOptions massObj zeroMassProps false).mass = 0 := by
  have h := mass_normalization_amended massObj PhysicsWorld.init
    { isStatic := true } zeroMassProps
  exact ⟨h.1 rfl, (h.2.1 rfl rfl).1, h.2.2 rfl⟩

/-- A scene object whose body was created as a trigger platform at
position `(5,0,0)` and whose visual was afterwards moved to the origin. -/
def kinObj : SceneObject := { uuid := 7, position := ⟨5, 0, 0⟩ }

/-- The trigger-platform (KINEMATIC) body built for `kinObj`. -/
def kinBody : Body :=
  (PhysicsWorld.init.addBody kinObj { type := .platform }).2

/-- The visual object after being moved away from the body. -/
def kinObjMoved : SceneObject := { kinObj with position := ⟨0, 0, 0⟩ }

/-- C7 (counterexample): the copy loop in `PhysicsWorld.step` only skips
`STATIC` bodies, so a KINEMATIC trigger-platform body whose position
differs from its visual by more than `0.001` has its transform copied onto
the visual — refuting that the copy happens only for DYNAMIC bodies and
never for kinematic ones. -/
theorem step_copies_kinematic_cex :
    kinBody.kind = .kinematic ∧
    (syncObject kinBody kinObjMoved).position = ⟨5, 0, 0⟩ ∧
    syncObject kinBody kinObjMoved ≠ kinObjMoved := by
  have hg : epsilonSq < distSq (⟨0, 0, 0⟩ : Vec3) ⟨5, 0, 0⟩ := by
    norm_num [distSq, epsilonSq]
  have hsync : syncObject kinBody kinObjMoved =
      { kinObjMoved with position := ⟨5, 0, 0⟩,
                         quaternion := Quat4.identity } := by
    simp [syncObject, kinBody, kinObjMoved, kinObj, PhysicsWorld.addBody,
      PhysicsWorld.init, builtKind, builtPosition, builtQuaternion, hg]
  refine ⟨by decide, ?_, ?_⟩
  · rw [hsync]
  · rw [hsync]
    intro h
    have hp := congrArg SceneObject.position h
    norm_num [kinObjMoved, kinObj, Vec3.mk.injEq] at hp

/-- C7 (amended): after a simulation step the copy applies to every
registered body that is not `STATIC` — DYNAMIC and KINEMATIC alike — when
the positional delta exceeds `0.001`, with no special exclusion for the
character-controlled object; `STATIC` bodies are never copied. -/
theorem step_copy_nonstatic_amended (obj : SceneObject) (body : Body) :
    (body.kind = .static → syncObject body obj = obj) ∧
    (body.kind ≠ .static →
      distSq obj.position body.position > epsilonSq →
      syncObject body obj =
        { obj with position := body.position,
                   quaternion := body.quaternion }) ∧
    (body.kind ≠ .static →
      distSq obj.position body.position ≤ epsilonSq →
      syncObject body obj = obj) := by
  refine ⟨fun hs => ?_, fun hk hd => ?_, fun hk hd => ?_⟩
  · simp [syncObject, hs]
  · simp [syncObject, hk, hd]
  · simp [syncObject, hk, not_lt_of_le hd]

/-- C7 (witness): the amended statement instantiated at the kinematic
trigger-platform body and its moved visual. -/
theorem step_copy_nonstatic_amended_witness :
    syncObject kinBody kinObjMoved =
      { kinObjMoved with position := kinBody.position,
                         quaternion := kinBody.quaternion } := by
  exact (step_copy_nonstatic_amended kinObjMoved kinBody).2.1
    (by decide)
    (by have hg : epsilonSq < distSq (⟨0, 0, 0⟩ : Vec3) ⟨5, 0, 0⟩ := by
          norm_num [distSq, epsilonSq]
        simpa [kinObjMoved, kinObj, kinBody, PhysicsWorld.addBody,
          PhysicsWorld.init, builtPosition] using hg)

/-- C10 (theorem): the epsilon-gated copy of `PhysicsWorld.step` — for a
registered non-static body, the visual is written only when the positional
delta exceeds `0.001`; position and orientation are written together under
that single test, so an orientation change with the position within
`0.001` is never copied. -/
theorem step_epsilon_gate (obj : SceneObject) (body : Body)
    (hk : body.kind ≠ .static) :
    (distSq obj.position body.position ≤ epsilonSq →
      syncObject body obj = obj) ∧
    (distSq obj.position body.position > epsilonSq →
      (syncObject body obj).position = body.position ∧
      (syncObject body obj).quaternion = body.quaternion) ∧
    ((syncObject body obj).quaternion ≠ obj.quaternion →
      distSq obj.position body.position > epsilonSq ∧
      (syncObject body obj).position = body.position) := by
  refine ⟨fun hd => ?_, fun hd => ?_, fun hq => ?_⟩
  · simp [syncObject, hk, not_lt_of_le hd]
  · simp [syncObject, hk, hd]
  · by_cases hd : distSq obj.position body.position > epsilonSq
    · simp [syncObject, hk, hd]
    · exfalso
      apply hq
      simp [syncObject, hk, hd]

/-- A body whose orientation was rotated while its position matches the
visual exactly (delta `0` ≤ `0.001`). -/
def turnedBody : Body :=
  { (PhysicsWorld.init.addBody kinObj { mass := 1 }).2 with
      quaternion := ⟨1, 0, 0, 0⟩ }

/-- C10 (witness): the gate theorem applied to a dynamic body that rotated
in place — the visual keeps its old orientation. -/
theorem step_epsilon_gate_witness :
    syncObject turnedBody kinObj = kinObj := by
  exact (step_epsilon_gate kinObj turnedBody (by decide)).1
    (by have hz : distSq (⟨5, 0, 0⟩ : Vec3) ⟨5, 0, 0⟩ ≤ epsilonSq := by
          norm_num [distSq, epsilonSq]
        simpa [kinObj, turnedBody, PhysicsWorld.addBody,
          PhysicsWorld.init, builtPosition] using hz)

/-- Auto-detection stub used to instantiate closed play-session runs (its
value is irrelevant on the executed paths). -/
def detectNone : SceneObject → ShapeInfo := fun _ => {}

/-- Store record with physics enabled, no collision frames and no
`autoCreate` request. -/
def skipData : ObjectData := { physics := some { enabled := true } }

/-- The mesh scene object for `skipData`. -/
def skipObj : SceneObject := { uuid := 3 }

/-- Game state holding exactly the one skip-branch object. -/
def skipState : GameState :=
  { objects := [(3, skipData)], scene := [skipObj] }

/-- C3 (counterexample): a physics-enabled mesh with no manual frames and
no `autoCreate` is skipped by `play()`'s main loop, but the
`activateAllPhysicsBodies` safeguard that `play()` calls right afterwards
creates a default body for it — so a body IS created for such an object
during a play session, refuting the claim. -/
theorem play_safeguard_creates_body_cex :
    (lookupBody (play detectNone detectNone skipState).1.phys.bodies
      3).isSome = true ∧
    (play detectNone detectNone skipState).1.phys.bodies.length = 1 := by
  refine ⟨by decide, by decide⟩

/-- Store record for a Group/GLTF root with physics enabled and an explicit
`autoCreate` request. -/
def groupData : ObjectData :=
  { physics := some { enabled := true, autoCreate := some .box } }

/-- The non-mesh (Group) scene object for `groupData`. -/
def groupObj : SceneObject := { uuid := 4, isMeshObj := false }

/-- Game state holding exactly the one Group-root object. -/
def groupState : GameState :=
  { objects := [(4, groupData)], scene := [groupObj] }

/-- C2 (counterexample): `stop()` only removes bodies and restores
transforms for objects whose three.js node is of type `Mesh`; a
physics-enabled Group/GLTF root that got a body during `play()` keeps it
through `stop()`, so the registry is NOT empty after a completed
`play(); stop()`. -/
theorem stop_leaves_group_body_cex :
    (stop (play detectNone detectNone groupState).1).phys.bodies.length
      = 1 ∧
    ¬ (stop (play detectNone detectNone groupState).1).phys.bodies.length
      = 0 := by
  refine ⟨by decide, by decide⟩

/-- Key uniqueness of an association list of bodies (an invariant of the
`Map` the registry models). -/
def nodupKeys (l : List (ℕ × Body)) : Prop := (l.map Prod.fst).Nodup

theorem lookupBody_setEntry_self (l : List (ℕ × Body)) (u : ℕ) (b : Body) :
    lookupBody (setEntry l u b) u = some b := by
  induction l with
  | nil => simp [setEntry, lookupBody]
  | cons hd tl ih =>
      obtain ⟨k, v⟩ := hd
      by_cases h : k = u <;> simp [setEntry, lookupBody, h, ih]

theorem lookupBody_setEntry_other (l : List (ℕ × Body)) (u v : ℕ) (b : Body)
    (h : v ≠ u) : lookupBody (setEntry l u b) v = lookupBody l v := by
  induction l with
  | nil => simp [setEntry, lookupBody, Ne.symm h]
  | cons hd tl ih =>
      obtain ⟨k, w⟩ := hd
      by_cases hk : k = u
      · subst hk
        simp [setEntry, lookupBody, Ne.symm h]
      · simp [setEntry, lookupBody, hk, ih]

theorem lookupBody_removeEntry_other (l : List (ℕ × Body)) (u v : ℕ)
    (h : v ≠ u) : lookupBody (removeEntry l u) v = lookupBody l v := by
  induction l with
  | nil => simp [removeEntry]
  | cons hd tl ih =>
      obtain ⟨k, w⟩ := hd
      by_cases hk : k = u
      · subst hk
        simp [removeEntry, lookupBody, Ne.symm h]
      · simp [removeEntry, lookupBody, hk, ih]

theorem lookupBody_eq_none_of_not_mem (l : List (ℕ × Body)) (u : ℕ)
    (h : u ∉ l.map Prod.fst) : lookupBody l u = none := by
  induction l with
  | nil => simp [lookupBody]
  | cons hd tl ih =>
      obtain ⟨k, v⟩ := hd
      simp only [List.map_cons, List.mem_cons] at h
      push_neg at h
      simp [lookupBody, Ne.symm h.1, ih h.2]

theorem lookupBody_removeEntry_self (l : List (ℕ × Body)) (u : ℕ)
    (h : nodupKeys l) : lookupBody (removeEntry l u) u = none := by
  induction l with
  | nil => simp [removeEntry, lookupBody]
  | cons hd tl ih =>
      obtain ⟨k, v⟩ := hd
      simp only [nodupKeys, List.map_cons, List.nodup_cons] at h
      by_cases hk : k = u
      · subst hk
        simp only [removeEntry, if_pos rfl]
        exact lookupBody_eq_none_of_not_mem tl _ h.1
      · simp [removeEntry, lookupBody, hk, ih h.2]

theorem setEntry_keys (l : List (ℕ × Body)) (u : ℕ) (b : Body) :
    (setEntry l u b).map Prod.fst =
      if u ∈ l.map Prod.fst then l.map Prod.fst
      else l.map Prod.fst ++ [u] := by
  induction l with
  | nil => simp [setEntry]
  | cons hd tl ih =>
      obtain ⟨k, w⟩ := hd
      by_cases hk : k = u
      · subst hk
        simp [setEntry]
      · simp only [setEntry, if_neg hk, List.map_cons, ih, List.mem_cons]
        by_cases hmem : u ∈ tl.map Prod.fst
        · simp [hmem]
        · simp [hmem, Ne.symm hk]

theorem nodupKeys_setEntry (l : List (ℕ × Body)) (u : ℕ) (b : Body)
    (h : nodupKeys l) : nodupKeys (setEntry l u b) := by
  unfold nodupKeys at h ⊢
  rw [setEntry_keys]
  by_cases hmem : u ∈ l.map Prod.fst
  · simpa [hmem] using h
  · simp only [if_neg hmem]
    refine h.append (by simp) ?_
    intro a ha hb
    simp only [List.mem_singleton] at hb
    subst hb
    exact hmem ha

theorem removeEntry_sublist (l : List (ℕ × Body)) (u : ℕ) :
    List.Sublist (removeEntry l u) l := by
  induction l with
  | nil => simp [removeEntry]
  | cons hd tl ih =>
      obtain ⟨k, w⟩ := hd
      by_cases hk : k = u
      · subst hk
        simp only [removeEntry, if_pos rfl]
        exact List.sublist_cons_self (k, w) tl
      · simpa [removeEntry, hk] using ih.cons₂ (k, w)

theorem nodupKeys_removeEntry (l : List (ℕ × Body)) (u : ℕ)
    (h : nodupKeys l) : nodupKeys (removeEntry l u) :=
  List.Nodup.sublist ((removeEntry_sublist l u).map Prod.fst) h

theorem lookupBody_addBody_self (st : PhysicsWorld) (obj : SceneObject)
    (o : BodyOptions) :
    lookupBody (st.addBody obj o).1.bodies obj.uuid =
      some (st.addBody obj o).2 := by
  simp [PhysicsWorld.addBody, lookupBody_setEntry_self]

theorem lookupBody_addBody_other (st : PhysicsWorld) (obj : SceneObject)
    (o : BodyOptions) (v : ℕ) (h : v ≠ obj.uuid) :
    lookupBody (st.addBody obj o).1.bodies v = lookupBody st.bodies v := by
  simp [PhysicsWorld.addBody, lookupBody_setEntry_other _ _ _ _ h]

theorem lookupBody_removeBody_other (st : PhysicsWorld) (u v : ℕ)
    (h : v ≠ u) :
    lookupBody (st.removeBody u).bodies v = lookupBody st.bodies v := by
  unfold PhysicsWorld.removeBody
  split
  · rfl
  · simp [lookupBody_removeEntry_other _ _ _ h]

theorem lookupBody_removeBody_self (st : PhysicsWorld) (u : ℕ)
    (h : nodupKeys st.bodies) :
    lookupBody (st.removeBody u).bodies u = none := by
  unfold PhysicsWorld.removeBody
  cases hl : lookupBody st.bodies u with
  | none => simpa using hl
  | some b => simp [lookupBody_removeEntry_self _ _ h]

theorem nodupKeys_addBody (st : PhysicsWorld) (obj : SceneObject)
    (o : BodyOptions) (h : nodupKeys st.bodies) :
    nodupKeys (st.addBody obj o).1.bodies := by
  simpa [PhysicsWorld.addBody] using nodupKeys_setEntry st.bodies obj.uuid _ h

theorem nodupKeys_removeBody (st : PhysicsWorld) (u : ℕ)
    (h : nodupKeys st.bodies) : nodupKeys (st.removeBody u).bodies := by
  unfold PhysicsWorld.removeBody
  split
  · exact h
  · exact nodupKeys_removeEntry _ _ h

theorem findObj_uuid {s : List SceneObject} {u : ℕ} {t : SceneObject}
    (h : findObj s u = some t) : t.uuid = u := by
  have := List.find?_some h
  simpa using this

theorem findObj_map (f : SceneObject → SceneObject)
    (hf : ∀ o, (f o).uuid = o.uuid) (s : List SceneObject) (v : ℕ) :
    findObj (s.map f) v = (findObj s v).map f := by
  induction s with
  | nil => simp [findObj]
  | cons hd tl ih =>
      simp only [findObj, List.map_cons, List.find?_cons, hf]
      by_cases h : hd.uuid = v
      · simp [h]
      · simp only [h, decide_False]
        simpa [findObj] using ih

theorem snapOriginal_uuid (o : SceneObject) :
    (snapOriginal o).uuid = o.uuid := rfl

theorem stopRestore_uuid (o : SceneObject) :
    (stopRestore o).uuid = o.uuid := by
  unfold stopRestore
  split
  · rfl
  · split <;> rfl

theorem findObj_snapScene_self {s : List SceneObject} {u : ℕ}
    {t : SceneObject} (h : findObj s u = some t) :
    findObj (snapScene s u) u = some (snapOriginal t) := by
  have hf : ∀ o : SceneObject,
      ((fun o => if o.uuid = u then snapOriginal o else o) o).uuid =
        o.uuid := by
    intro o
    by_cases ho : o.uuid = u <;> simp [snapOriginal_uuid, ho]
  rw [snapScene, findObj_map _ hf, h]
  simp [findObj_uuid h]

theorem findObj_snapScene_other {s : List SceneObject} {u v : ℕ}
    (hne : v ≠ u) : findObj (snapScene s u) v = findObj s v := by
  have hf : ∀ o : SceneObject,
      ((fun o => if o.uuid = u then snapOriginal o else o) o).uuid =
        o.uuid := by
    intro o
    by_cases ho : o.uuid = u <;> simp [snapOriginal_uuid, ho]
  rw [snapScene, findObj_map _ hf]
  cases hfind : findObj s v with
  | none => rfl
  | some t => simp [findObj_uuid hfind, hne]

theorem findObj_restoreScene_self {s : List SceneObject} {u : ℕ}
    {t : SceneObject} (h : findObj s u = some t) :
    findObj (restoreScene s u) u = some (stopRestore t) := by
  have hf : ∀ o : SceneObject,
      ((fun o => if o.uuid = u then stopRestore o else o) o).uuid =
        o.uuid := by
    intro o
    by_cases ho : o.uuid = u <;> simp [stopRestore_uuid, ho]
  rw [restoreScene, findObj_map _ hf, h]
  simp [findObj_uuid h]

theorem findObj_restoreScene_other {s : List SceneObject} {u v : ℕ}
    (hne : v ≠ u) : findObj (restoreScene s u) v = findObj s v := by
  have hf : ∀ o : SceneObject,
      ((fun o => if o.uuid = u then stopRestore o else o) o).uuid =
        o.uuid := by
    intro o
    by_cases ho : o.uuid = u <;> simp [stopRestore_uuid, ho]
  rw [restoreScene, findObj_map _ hf]
  cases hfind : findObj s v with
  | none => rfl
  | some t => simp [findObj_uuid hfind, hne]

theorem stopRestore_snapOriginal (t : SceneObject) :
    stopRestore (snapOriginal t) =
      { t with originalPosition := some t.position
               originalRotation := some t.rotation
               userVelocity := ⟨0, 0, 0⟩ } := by
  simp [stopRestore, snapOriginal]

theorem playProcessObject_cases (d dc : SceneObject → ShapeInfo) (u : ℕ)
    (dat : ObjectData) (g : GameState) :
    (playProcessObject d dc u dat g).1 = g ∨
    (playProcessObject d dc u dat g).1 =
      { g with scene := snapScene g.scene u } ∨
    ∃ tobj o, tobj.uuid = u ∧
      (playProcessObject d dc u dat g).1 =
        { g with scene := snapScene g.scene u,
                 phys := ((g.phys.removeBody u).addBody tobj o).1 } := by
  unfold playProcessObject
  split
  · exact Or.inl rfl
  · split
    · split
      · exact Or.inl rfl
      · rename_i p hp tobj hfind
        have htu := findObj_uuid hfind
        split
        · split
          · exact Or.inr (Or.inr ⟨tobj, _, htu, rfl⟩)
          · split
            · exact Or.inr (Or.inr ⟨tobj, _, htu, rfl⟩)
            · exact Or.inr (Or.inl rfl)
        · split
          · exact Or.inr (Or.inl rfl)
          · split
            · exact Or.inr (Or.inr ⟨tobj, _, htu, rfl⟩)
            · exact Or.inr (Or.inl rfl)
    · exact Or.inl rfl

theorem playProcessObject_events_cases (d dc : SceneObject → ShapeInfo)
    (u : ℕ) (dat : ObjectData) (g : GameState) :
    (playProcessObject d dc u dat g).2 = [] ∨
    ∃ o, (playProcessObject d dc u dat g).2 =
      [Ev.removeBody u, Ev.addBody u o] := by
  unfold playProcessObject
  split
  · exact Or.inl rfl
  · split
    · split
      · exact Or.inl rfl
      · split
        · split
          · exact Or.inr ⟨_, rfl⟩
          · split
            · exact Or.inr ⟨_, rfl⟩
            · exact Or.inl rfl
        · split
          · exact Or.inl rfl
          · split
            · exact Or.inr ⟨_, rfl⟩
            · exact Or.inl rfl
    · exact Or.inl rfl

theorem playProcessObject_scene_of_found (d dc : SceneObject → ShapeInfo)
    (u : ℕ) (dat : ObjectData) (g : GameState) (p : PhysicsProps)
    (tobj : SceneObject) (hphys : dat.physics = some p)
    (hp : p.enabled = true) (hfind : findObj g.scene u = some tobj) :
    (playProcessObject d dc u dat g).1.scene = snapScene g.scene u := by
  unfold playProcessObject
  rw [hphys]
  simp only [hp, if_true, hfind]
  split
  · split
    · rfl
    · split
      · rfl
      · rfl
  · split
    · rfl
    · split
      · rfl
      · rfl

theorem playProcessObject_skip (d dc : SceneObject → ShapeInfo)
    (u : ℕ) (dat : ObjectData) (g : GameState) (p : PhysicsProps)
    (tobj : SceneObject) (hphys : dat.physics = some p)
    (hp : p.enabled = true) (hfind : findObj g.scene u = some tobj)
    (hframes : dat.collisionFrames = [])
    (hauto : p.autoCreate = none) :
    playProcessObject d dc u dat g =
      ({ g with scene := snapScene g.scene u }, []) := by
  unfold playProcessObject
  simp only [hphys, hp, hfind, hframes, hauto, if_true, ne_eq,
    not_true_eq_false, if_false]
  split <;> rfl

theorem activateObject_cases (u : ℕ) (dat : ObjectData) (g : GameState) :
    (activateObject u dat g).1 = g ∨
    ∃ tobj o, tobj.uuid = u ∧
      (activateObject u dat g).1 =
        { g with phys := (g.phys.addBody tobj o).1 } := by
  unfold activateObject
  split
  · exact Or.inl rfl
  · split
    · split
      · exact Or.inl rfl
      · rename_i p hp tobj hfind
        have htu := findObj_uuid hfind
        split
        · split
          · exact Or.inr ⟨tobj, _, htu, rfl⟩
          · exact Or.inl rfl
        · exact Or.inl rfl
    · exact Or.inl rfl

theorem activateObject_events_cases (u : ℕ) (dat : ObjectData)
    (g : GameState) :
    (activateObject u dat g).2 = [] ∨
    ∃ o, (activateObject u dat g).2 = [Ev.addBody u o] := by
  unfold activateObject
  split
  · exact Or.inl rfl
  · split
    · split
      · exact Or.inl rfl
      · split
        · split
          · exact Or.inr ⟨_, rfl⟩
          · exact Or.inl rfl
        · exact Or.inl rfl
    · exact Or.inl rfl

/-- The options of the default body created by the
`activateAllPhysicsBodies` safeguard for a stored configuration. -/
def safeguardOptions (p : PhysicsProps) : BodyOptions :=
  { type := p.bodyType
    mass := jsOrOne p.mass
    size := some (p.size.getD ⟨1, 1, 1⟩) }

theorem activateObject_self (u : ℕ) (dat : ObjectData) (g : GameState)
    (p : PhysicsProps) (tobj : SceneObject)
    (hphys : dat.physics = some p) (hp : p.enabled = true)
    (hfind : findObj g.scene u = some tobj) (hmesh : tobj.isMeshObj = true)
    (hnone : lookupBody g.phys.bodies u = none) :
    ∃ b, lookupBody (activateObject u dat g).1.phys.bodies u = some b ∧
      b.opts = safeguardOptions p := by
  unfold activateObject
  rw [hphys]
  simp only [hp, if_true, hfind, hmesh, hnone]
  refine ⟨(g.phys.addBody tobj (safeguardOptions p)).2, ?_, rfl⟩
  have := lookupBody_addBody_self g.phys tobj (safeguardOptions p)
  rw [findObj_uuid hfind] at this
  simpa [safeguardOptions] using this

theorem stopProcessObject_cases (u : ℕ) (dat : ObjectData) (g : GameState) :
    stopProcessObject u dat g = g ∨
    stopProcessObject u dat g =
      { g with phys := g.phys.removeBody u,
               scene := restoreScene g.scene u } := by
  unfold stopProcessObject
  split
  · exact Or.inl rfl
  · split
    · split
      · exact Or.inl rfl
      · split
        · exact Or.inr rfl
        · exact Or.inl rfl
    · exact Or.inl rfl

theorem stopProcessObject_self (u : ℕ) (dat : ObjectData) (g : GameState)
    (p : PhysicsProps) (tobj : SceneObject)
    (hphys : dat.physics = some p) (hp : p.enabled = true)
    (hfind : findObj g.scene u = some tobj) (hmesh : tobj.isMeshObj = true)
    (hnodup : nodupKeys g.phys.bodies) :
    lookupBody (stopProcessObject u dat g).phys.bodies u = none ∧
    findObj (stopProcessObject u dat g).scene u =
      some (stopRestore tobj) := by
  unfold stopProcessObject
  rw [hphys]
  simp only [hp, if_true, hfind, hmesh]
  exact ⟨lookupBody_removeBody_self g.phys u hnodup,
    findObj_restoreScene_self hfind⟩

theorem playProcessObject_objects (d dc : SceneObject → ShapeInfo) (u : ℕ)
    (dat : ObjectData) (g : GameState) :
    (playProcessObject d dc u dat g).1.objects = g.objects := by
  rcases playProcessObject_cases d dc u dat g with h | h | ⟨tobj, o, htu, h⟩
    <;> rw [h]

theorem playProcessObject_preserve_other (d dc : SceneObject → ShapeInfo)
    (u : ℕ) (dat : ObjectData) (g : GameState) (v : ℕ) (hv : v ≠ u) :
    findObj (playProcessObject d dc u dat g).1.scene v =
      findObj g.scene v ∧
    lookupBody (playProcessObject d dc u dat g).1.phys.bodies v =
      lookupBody g.phys.bodies v := by
  rcases playProcessObject_cases d dc u dat g with h | h | ⟨tobj, o, htu, h⟩
    <;> rw [h]
  · exact ⟨rfl, rfl⟩
  · exact ⟨findObj_snapScene_other hv, rfl⟩
  · refine ⟨findObj_snapScene_other hv, ?_⟩
    have hvt : v ≠ tobj.uuid := fun hh => hv (hh.trans htu)
    rw [lookupBody_addBody_other _ _ _ _ hvt,
      lookupBody_removeBody_other _ _ _ hv]

theorem playProcessObject_nodup (d dc : SceneObject → ShapeInfo) (u : ℕ)
    (dat : ObjectData) (g : GameState) (h : nodupKeys g.phys.bodies) :
    nodupKeys (playProcessObject d dc u dat g).1.phys.bodies := by
  rcases playProcessObject_cases d dc u dat g with hc | hc | ⟨tobj, o, htu, hc⟩
    <;> rw [hc]
  · exact h
  · exact h
  · exact nodupKeys_addBody _ _ _ (nodupKeys_removeBody _ _ h)

theorem playLoop_objects (d dc : SceneObject → ShapeInfo)
    (objs : List (ℕ × ObjectData)) (g : GameState) :
    (playLoop d dc objs g).1.objects = g.objects := by
  induction objs generalizing g with
  | nil => rfl
  | cons hd tl ih =>
      obtain ⟨u, dat⟩ := hd
      simp only [playLoop]
      rw [ih, playProcessObject_objects]

theorem playLoop_preserve_other (d dc : SceneObject → ShapeInfo)
    (objs : List (ℕ × ObjectData)) (g : GameState) (v : ℕ)
    (hv : ∀ e ∈ objs, e.1 ≠ v) :
    findObj (playLoop d dc objs g).1.scene v = findObj g.scene v ∧
    lookupBody (playLoop d dc objs g).1.phys.bodies v =
      lookupBody g.phys.bodies v := by
  induction objs generalizing g with
  | nil => exact ⟨rfl, rfl⟩
  | cons hd tl ih =>
      obtain ⟨u, dat⟩ := hd
      have hne : v ≠ u := Ne.symm (hv (u, dat) (List.mem_cons_self _ _))
      have h1 := playProcessObject_preserve_other d dc u dat g v hne
      have h2 := ih (playProcessObject d dc u dat g).1
        (fun e he => hv e (List.mem_cons_of_mem _ he))
      simp only [playLoop]
      exact ⟨h2.1.trans h1.1, h2.2.trans h1.2⟩

theorem playLoop_nodup (d dc : SceneObject → ShapeInfo)
    (objs : List (ℕ × ObjectData)) (g : GameState)
    (h : nodupKeys g.phys.bodies) :
    nodupKeys (playLoop d dc objs g).1.phys.bodies := by
  induction objs generalizing g with
  | nil => exact h
  | cons hd tl ih =>
      obtain ⟨u, dat⟩ := hd
      simp only [playLoop]
      exact ih _ (playProcessObject_nodup d dc u dat g h)

theorem playLoop_append (d dc : SceneObject → ShapeInfo)
    (l1 l2 : List (ℕ × ObjectData)) (g : GameState) :
    (playLoop d dc (l1 ++ l2) g).1 =
      (playLoop d dc l2 (playLoop d dc l1 g).1).1 := by
  induction l1 generalizing g with
  | nil => rfl
  | cons hd tl ih =>
      obtain ⟨u, dat⟩ := hd
      simp only [playLoop, List.cons_append]
      exact ih _

theorem activateObject_scene (u : ℕ) (dat : ObjectData) (g : GameState) :
    (activateObject u dat g).1.scene = g.scene := by
  rcases activateObject_cases u dat g with h | ⟨tobj, o, htu, h⟩ <;> rw [h]

theorem activateObject_objects (u : ℕ) (dat : ObjectData) (g : GameState) :
    (activateObject u dat g).1.objects = g.objects := by
  rcases activateObject_cases u dat g with h | ⟨tobj, o, htu, h⟩ <;> rw [h]

theorem activateObject_preserve_other (u : ℕ) (dat : ObjectData)
    (g : GameState) (v : ℕ) (hv : v ≠ u) :
    lookupBody (activateObject u dat g).1.phys.bodies v =
      lookupBody g.phys.bodies v := by
  rcases activateObject_cases u dat g with h | ⟨tobj, o, htu, h⟩ <;> rw [h]
  exact lookupBody_addBody_other _ _ _ _ (fun hh => hv (hh.trans htu))

theorem activateObject_nodup (u : ℕ) (dat : ObjectData) (g : GameState)
    (h : nodupKeys g.phys.bodies) :
    nodupKeys (activateObject u dat g).1.phys.bodies := by
  rcases activateObject_cases u dat g with hc | ⟨tobj, o, htu, hc⟩ <;> rw [hc]
  · exact h
  · exact nodupKeys_addBody _ _ _ h

theorem activateLoop_scene (objs : List (ℕ × ObjectData)) (g : GameState) :
    (activateLoop objs g).1.scene = g.scene := by
  induction objs generalizing g with
  | nil => rfl
  | cons hd tl ih =>
      obtain ⟨u, dat⟩ := hd
      simp only [activateLoop]
      rw [ih, activateObject_scene]

theorem activateLoop_objects (objs : List (ℕ × ObjectData)) (g : GameState) :
    (activateLoop objs g).1.objects = g.objects := by
  induction objs generalizing g with
  | nil => rfl
  | cons hd tl ih =>
      obtain ⟨u, dat⟩ := hd
      simp only [activateLoop]
      rw [ih, activateObject_objects]

theorem activateLoop_preserve_other (objs : List (ℕ × ObjectData))
    (g : GameState) (v : ℕ) (hv : ∀ e ∈ objs, e.1 ≠ v) :
    lookupBody (activateLoop objs g).1.phys.bodies v =
      lookupBody g.phys.bodies v := by
  induction objs generalizing g with
  | nil => rfl
  | cons hd tl ih =>
      obtain ⟨u, dat⟩ := hd
      have hne : v ≠ u := Ne.symm (hv (u, dat) (List.mem_cons_self _ _))
      simp only [activateLoop]
      exact (ih _ (fun e he => hv e (List.mem_cons_of_mem _ he))).trans
        (activateObject_preserve_other u dat g v hne)

theorem activateLoop_nodup (objs : List (ℕ × ObjectData)) (g : GameState)
    (h : nodupKeys g.phys.bodies) :
    nodupKeys (activateLoop objs g).1.phys.bodies := by
  induction objs generalizing g with
  | nil => exact h
  | cons hd tl ih =>
      obtain ⟨u, dat⟩ := hd
      simp only [activateLoop]
      exact ih _ (activateObject_nodup u dat g h)

theorem activateLoop_append (l1 l2 : List (ℕ × ObjectData)) (g : GameState) :
    (activateLoop (l1 ++ l2) g).1 =
      (activateLoop l2 (activateLoop l1 g).1).1 := by
  induction l1 generalizing g with
  | nil => rfl
  | cons hd tl ih =>
      obtain ⟨u, dat⟩ := hd
      simp only [activateLoop, List.cons_append]
      exact ih _

theorem stopProcessObject_objects (u : ℕ) (dat : ObjectData)
    (g : GameState) : (stopProcessObject u dat g).objects = g.objects := by
  rcases stopProcessObject_cases u dat g with h | h <;> rw [h]

theorem stopProcessObject_preserve_other (u : ℕ) (dat : ObjectData)
    (g : GameState) (v : ℕ) (hv : v ≠ u) :
    findObj (stopProcessObject u dat g).scene v = findObj g.scene v ∧
    lookupBody (stopProcessObject u dat g).phys.bodies v =
      lookupBody g.phys.bodies v := by
  rcases stopProcessObject_cases u dat g with h | h <;> rw [h]
  · exact ⟨rfl, rfl⟩
  · exact ⟨findObj_restoreScene_other hv,
      lookupBody_removeBody_other _ _ _ hv⟩

theorem stopProcessObject_nodup (u : ℕ) (dat : ObjectData) (g : GameState)
    (h : nodupKeys g.phys.bodies) :
    nodupKeys (stopProcessObject u dat g).phys.bodies := by
  rcases stopProcessObject_cases u dat g with hc | hc <;> rw [hc]
  · exact h
  · exact nodupKeys_removeBody _ _ h

theorem stopProcessObject_never_adds (u : ℕ) (dat : ObjectData)
    (g : GameState) (v : ℕ)
    (h : lookupBody g.phys.bodies v = none) :
    lookupBody (stopProcessObject u dat g).phys.bodies v = none := by
  rcases stopProcessObject_cases u dat g with hc | hc <;> rw [hc]
  · exact h
  · by_cases hv : v = u
    · subst hv
      unfold PhysicsWorld.removeBody
      simp only [h]
    · exact (lookupBody_removeBody_other _ _ _ hv).trans h

theorem stopLoop_objects (objs : List (ℕ × ObjectData)) (g : GameState) :
    (stopLoop objs g).objects = g.objects := by
  induction objs generalizing g with
  | nil => rfl
  | cons hd tl ih =>
      obtain ⟨u, dat⟩ := hd
      simp only [stopLoop]
      rw [ih, stopProcessObject_objects]

theorem stopLoop_preserve_other (objs : List (ℕ × ObjectData))
    (g : GameState) (v : ℕ) (hv : ∀ e ∈ objs, e.1 ≠ v) :
    findObj (stopLoop objs g).scene v = findObj g.scene v ∧
    lookupBody (stopLoop objs g).phys.bodies v =
      lookupBody g.phys.bodies v := by
  induction objs generalizing g with
  | nil => exact ⟨rfl, rfl⟩
  | cons hd tl ih =>
      obtain ⟨u, dat⟩ := hd
      have hne : v ≠ u := Ne.symm (hv (u, dat) (List.mem_cons_self _ _))
      have h1 := stopProcessObject_preserve_other u dat g v hne
      have h2 := ih (stopProcessObject u dat g)
        (fun e he => hv e (List.mem_cons_of_mem _ he))
      simp only [stopLoop]
      exact ⟨h2.1.trans h1.1, h2.2.trans h1.2⟩

theorem stopLoop_nodup (objs : List (ℕ × ObjectData)) (g : GameState)
    (h : nodupKeys g.phys.bodies) :
    nodupKeys (stopLoop objs g).phys.bodies := by
  induction objs generalizing g with
  | nil => exact h
  | cons hd tl ih =>
      obtain ⟨u, dat⟩ := hd
      simp only [stopLoop]
      exact ih _ (stopProcessObject_nodup u dat g h)

theorem stopLoop_append (l1 l2 : List (ℕ × ObjectData)) (g : GameState) :
    stopLoop (l1 ++ l2) g = stopLoop l2 (stopLoop l1 g) := by
  induction l1 generalizing g with
  | nil => rfl
  | cons hd tl ih =>
      obtain ⟨u, dat⟩ := hd
      simp only [stopLoop, List.cons_append]
      exact ih _

theorem play_at_mesh (d dc : SceneObject → ShapeInfo) (g : GameState)
    (pre post : List (ℕ × ObjectData)) (u : ℕ) (dat : ObjectData)
    (p : PhysicsProps) (tobj : SceneObject)
    (hobjs : g.objects = pre ++ (u, dat) :: post)
    (hpre : ∀ e ∈ pre, e.1 ≠ u) (hpost : ∀ e ∈ post, e.1 ≠ u)
    (hbodies : nodupKeys g.phys.bodies)
    (hphys : dat.physics = some p) (hp : p.enabled = true)
    (hfind : findObj g.scene u = some tobj) :
    (play d dc g).1.objects = g.objects ∧
    nodupKeys (play d dc g).1.phys.bodies ∧
    findObj (play d dc g).1.scene u = some (snapOriginal tobj) := by
  refine ⟨?_, ?_, ?_⟩
  · simp only [play]
    rw [activateLoop_objects, playLoop_objects]
  · simp only [play]
    exact activateLoop_nodup _ _ (playLoop_nodup _ _ _ _ hbodies)
  · simp only [play]
    rw [activateLoop_scene]
    show findObj
      (playLoop d dc g.objects
        { g with suppressCollisionFrameUpdates := true }).1.scene u =
      some (snapOriginal tobj)
    have hg0scene :
        ({ g with suppressCollisionFrameUpdates := true } :
          GameState).scene = g.scene := rfl
    generalize hG : ({ g with suppressCollisionFrameUpdates := true } :
      GameState) = g0
    rw [hG] at hg0scene
    rw [hobjs, playLoop_append]
    simp only [playLoop]
    have hfindPre : findObj (playLoop d dc pre g0).1.scene u =
        some tobj := by
      rw [(playLoop_preserve_other d dc pre g0 u hpre).1, hg0scene]
      exact hfind
    have hmid := playProcessObject_scene_of_found d dc u dat
      (playLoop d dc pre g0).1 p tobj hphys hp hfindPre
    have hrest := (playLoop_preserve_other d dc post
      (playProcessObject d dc u dat (playLoop d dc pre g0).1).1
      u hpost).1
    rw [hrest, hmid]
    exact findObj_snapScene_self hfindPre

theorem stop_at_mesh (g : GameState)
    (pre post : List (ℕ × ObjectData)) (u : ℕ) (dat : ObjectData)
    (p : PhysicsProps) (tobj : SceneObject)
    (hobjs : g.objects = pre ++ (u, dat) :: post)
    (hpre : ∀ e ∈ pre, e.1 ≠ u) (hpost : ∀ e ∈ post, e.1 ≠ u)
    (hbodies : nodupKeys g.phys.bodies)
    (hphys : dat.physics = some p) (hp : p.enabled = true)
    (hfind : findObj g.scene u = some tobj)
    (hmesh : tobj.isMeshObj = true) :
    lookupBody (stop g).phys.bodies u = none ∧
    findObj (stop g).scene u = some (stopRestore tobj) ∧
    (stop g).objects = g.objects ∧
    nodupKeys (stop g).phys.bodies := by
  have hmain : ∀ gmid : GameState, gmid.scene = g.scene →
      gmid.phys.bodies = g.phys.bodies →
      lookupBody (stopLoop g.objects gmid).phys.bodies u = none ∧
      findObj (stopLoop g.objects gmid).scene u =
        some (stopRestore tobj) := by
    intro gmid hsc hbd
    rw [hobjs, stopLoop_append]
    simp only [stopLoop]
    have hfindPre : findObj (stopLoop pre gmid).scene u = some tobj := by
      rw [(stopLoop_preserve_other pre gmid u hpre).1, hsc]
      exact hfind
    have hnodupPre : nodupKeys (stopLoop pre gmid).phys.bodies := by
      refine stopLoop_nodup pre gmid ?_
      rw [hbd]
      exact hbodies
    have hself := stopProcessObject_self u dat (stopLoop pre gmid) p tobj
      hphys hp hfindPre hmesh hnodupPre
    have hpost2 := stopLoop_preserve_other post
      (stopProcessObject u dat (stopLoop pre gmid)) u hpost
    exact ⟨hpost2.2.trans hself.1, hpost2.1.trans hself.2⟩
  constructor
  · simp only [stop]
    exact (hmain
      { g with isPlaying := false, isPaused := false,
               phys := { g.phys with enabled := false } } rfl rfl).1
  constructor
  · simp only [stop]
    exact (hmain
      { g with isPlaying := false, isPaused := false,
               phys := { g.phys with enabled := false } } rfl rfl).2
  constructor
  · simp only [stop]
    rw [stopLoop_objects]
  · simp only [stop]
    exact stopLoop_nodup _ _ hbodies

theorem play_stop_round (d dc : SceneObject → ShapeInfo) (g : GameState)
    (u : ℕ) (dat : ObjectData) (p : PhysicsProps) (tobj : SceneObject)
    (hkeys : (g.objects.map Prod.fst).Nodup)
    (hmem : (u, dat) ∈ g.objects)
    (hbodies : nodupKeys g.phys.bodies)
    (hphys : dat.physics = some p) (hp : p.enabled = true)
    (hfind : findObj g.scene u = some tobj)
    (hmesh : tobj.isMeshObj = true) :
    lookupBody (stop (play d dc g).1).phys.bodies u = none ∧
    findObj (stop (play d dc g).1).scene u =
      some (stopRestore (snapOriginal tobj)) ∧
    (stop (play d dc g).1).objects = g.objects ∧
    nodupKeys (stop (play d dc g).1).phys.bodies := by
  obtain ⟨pre, post, hobjs⟩ := List.append_of_mem hmem
  have hknd : u ∉ pre.map Prod.fst ∧ u ∉ post.map Prod.fst := by
    rw [hobjs] at hkeys
    simp only [List.map_append, List.map_cons] at hkeys
    have hsplit := List.nodup_append.mp hkeys
    refine ⟨fun hin => ?_, (List.nodup_cons.mp hsplit.2.1).1⟩
    exact (hsplit.2.2 hin) (List.mem_cons_self _ _)
  have hpre : ∀ e ∈ pre, e.1 ≠ u := fun e he hh =>
    hknd.1 (hh ▸ List.mem_map_of_mem Prod.fst he)
  have hpost : ∀ e ∈ post, e.1 ≠ u := fun e he hh =>
    hknd.2 (hh ▸ List.mem_map_of_mem Prod.fst he)
  have hplay := play_at_mesh d dc g pre post u dat p tobj hobjs hpre hpost
    hbodies hphys hp hfind
  have hmesh2 : (snapOriginal tobj).isMeshObj = true := hmesh
  have hstop := stop_at_mesh (play d dc g).1 pre post u dat p
    (snapOriginal tobj) (hplay.1.trans hobjs) hpre hpost hplay.2.1
    hphys hp hplay.2.2 hmesh2
  exact ⟨hstop.1, hstop.2.1, hstop.2.2.1.trans hplay.1, hstop.2.2.2⟩

/-- C2 (amended): after a completed `stop()` of a play session, every
physics-enabled object whose scene node is a `Mesh` has no body left in the
registry and its position and rotation are restored to the `play()`
snapshot (its pre-play transform); this also holds after running
`play(); stop()` twice in succession.  (Bodies of physics-enabled
Group/GLTF roots are NOT removed and their transforms are not restored —
see the counterexample — so the registry is empty after `stop()` only when
all registered bodies belong to `Mesh` objects.) -/
theorem play_stop_mesh_cleanup_and_restore
    (d dc : SceneObject → ShapeInfo) (g : GameState) (u : ℕ)
    (dat : ObjectData) (p : PhysicsProps) (tobj : SceneObject)
    (hkeys : (g.objects.map Prod.fst).Nodup)
    (hmem : (u, dat) ∈ g.objects)
    (hbodies : nodupKeys g.phys.bodies)
    (hphys : dat.physics = some p) (hp : p.enabled = true)
    (hfind : findObj g.scene u = some tobj)
    (hmesh : tobj.isMeshObj = true) :
    (lookupBody (stop (play d dc g).1).phys.bodies u = none ∧
      ∃ t1, findObj (stop (play d dc g).1).scene u = some t1 ∧
        t1.position = tobj.position ∧ t1.rotation = tobj.rotation) ∧
    (lookupBody
        (stop (play d dc (stop (play d dc g).1)).1).phys.bodies u = none ∧
      ∃ t2, findObj (stop (play d dc (stop (play d dc g).1)).1).scene u =
          some t2 ∧
        t2.position = tobj.position ∧ t2.rotation = tobj.rotation) := by
  have r1 := play_stop_round d dc g u dat p tobj hkeys hmem hbodies hphys
    hp hfind hmesh
  have ht1 : stopRestore (snapOriginal tobj) =
      { tobj with originalPosition := some tobj.position
                  originalRotation := some tobj.rotation
                  userVelocity := ⟨0, 0, 0⟩ } := stopRestore_snapOriginal tobj
  have hmesh1 : (stopRestore (snapOriginal tobj)).isMeshObj = true := by
    rw [ht1]
    exact hmesh
  have r2 := play_stop_round d dc (stop (play d dc g).1) u dat p
    (stopRestore (snapOriginal tobj))
    (by rw [r1.2.2.1]; exact hkeys)
    (by rw [r1.2.2.1]; exact hmem)
    r1.2.2.2 hphys hp r1.2.1 hmesh1
  refine ⟨⟨r1.1, stopRestore (snapOriginal tobj), r1.2.1, ?_, ?_⟩,
    r2.1, stopRestore (snapOriginal (stopRestore (snapOriginal tobj))),
    r2.2.1, ?_, ?_⟩
  · rw [ht1]
  · rw [ht1]
  · rw [stopRestore_snapOriginal, ht1]
  · rw [stopRestore_snapOriginal, ht1]

/-- Physics configuration of the mesh object used in the play/stop
round-trip witness. -/
def meshProps : PhysicsProps := { enabled := true }

/-- Store record of the witness mesh object. -/
def meshData : ObjectData := { physics := some meshProps }

/-- The witness mesh object, away from the origin so the restore is
visible. -/
def meshObj5 : SceneObject :=
  { uuid := 5, position := ⟨1, 2, 3⟩, rotation := ⟨0, 1, 0⟩ }

/-- Witness game state: exactly one physics-enabled mesh object. -/
def meshState : GameState :=
  { objects := [(5, meshData)], scene := [meshObj5] }

/-- C2 (witness): the amended round-trip applied to the one-mesh state. -/
theorem play_stop_mesh_cleanup_and_restore_witness :
    lookupBody (stop (play detectNone detectNone meshState).1).phys.bodies 5
      = none ∧
    ∃ t1, findObj (stop (play detectNone detectNone meshState).1).scene 5 =
        some t1 ∧ t1.position = ⟨1, 2, 3⟩ ∧ t1.rotation = ⟨0, 1, 0⟩ := by
  have h := play_stop_mesh_cleanup_and_restore detectNone detectNone
    meshState 5 meshData meshProps meshObj5 (by decide) (by decide)
    (by unfold nodupKeys; decide) rfl rfl (by decide) rfl
  exact ⟨h.1.1, h.1.2⟩

theorem keys_split (l : List (ℕ × ObjectData)) (u : ℕ) (dat : ObjectData)
    (hkeys : (l.map Prod.fst).Nodup) (hmem : (u, dat) ∈ l) :
    ∃ pre post, l = pre ++ (u, dat) :: post ∧
      (∀ e ∈ pre, e.1 ≠ u) ∧ (∀ e ∈ post, e.1 ≠ u) := by
  obtain ⟨pre, post, hobjs⟩ := List.append_of_mem hmem
  rw [hobjs] at hkeys
  simp only [List.map_append, List.map_cons] at hkeys
  have hsplit := List.nodup_append.mp hkeys
  refine ⟨pre, post, hobjs, fun e he hh => ?_, fun e he hh => ?_⟩
  · exact (hsplit.2.2 (hh ▸ List.mem_map_of_mem Prod.fst he))
      (List.mem_cons_self _ _)
  · exact (List.nodup_cons.mp hsplit.2.1).1
      (hh ▸ List.mem_map_of_mem Prod.fst he)

theorem activateObject_nonmesh (u : ℕ) (dat : ObjectData) (g : GameState)
    (p : PhysicsProps) (tobj : SceneObject)
    (hphys : dat.physics = some p) (hp : p.enabled = true)
    (hfind : findObj g.scene u = some tobj)
    (hmesh : tobj.isMeshObj = false) :
    activateObject u dat g = (g, []) := by
  unfold activateObject
  simp [hphys, hp, hfind, hmesh]

theorem playLoop_skip_bodies (d dc : SceneObject → ShapeInfo)
    (g0 : GameState) (pre post : List (ℕ × ObjectData)) (u : ℕ)
    (dat : ObjectData) (p : PhysicsProps) (tobj : SceneObject)
    (hpre : ∀ e ∈ pre, e.1 ≠ u) (hpost : ∀ e ∈ post, e.1 ≠ u)
    (hphys : dat.physics = some p) (hp : p.enabled = true)
    (hframes : dat.collisionFrames = []) (hauto : p.autoCreate = none)
    (hfind : findObj g0.scene u = some tobj) :
    lookupBody
        (playLoop d dc (pre ++ (u, dat) :: post) g0).1.phys.bodies u =
      lookupBody g0.phys.bodies u := by
  rw [playLoop_append]
  simp only [playLoop]
  have hfindPre : findObj (playLoop d dc pre g0).1.scene u = some tobj := by
    rw [(playLoop_preserve_other d dc pre g0 u hpre).1]
    exact hfind
  have hskip := playProcessObject_skip d dc u dat (playLoop d dc pre g0).1
    p tobj hphys hp hfindPre hframes hauto
  rw [(playLoop_preserve_other d dc post
    (playProcessObject d dc u dat (playLoop d dc pre g0).1).1 u hpost).2,
    hskip]
  exact (playLoop_preserve_other d dc pre g0 u hpre).2

theorem playLoop_snap_scene (d dc : SceneObject → ShapeInfo)
    (g0 : GameState) (pre post : List (ℕ × ObjectData)) (u : ℕ)
    (dat : ObjectData) (p : PhysicsProps) (tobj : SceneObject)
    (hpre : ∀ e ∈ pre, e.1 ≠ u) (hpost : ∀ e ∈ post, e.1 ≠ u)
    (hphys : dat.physics = some p) (hp : p.enabled = true)
    (hfind : findObj g0.scene u = some tobj) :
    findObj (playLoop d dc (pre ++ (u, dat) :: post) g0).1.scene u =
      some (snapOriginal tobj) := by
  rw [playLoop_append]
  simp only [playLoop]
  have hfindPre : findObj (playLoop d dc pre g0).1.scene u = some tobj := by
    rw [(playLoop_preserve_other d dc pre g0 u hpre).1]
    exact hfind
  have hmid := playProcessObject_scene_of_found d dc u dat
    (playLoop d dc pre g0).1 p tobj hphys hp hfindPre
  rw [(playLoop_preserve_other d dc post
    (playProcessObject d dc u dat (playLoop d dc pre g0).1).1 u hpost).1,
    hmid]
  exact findObj_snapScene_self hfindPre

theorem activate_after_skip (S : GameState) (l : List (ℕ × ObjectData))
    (pre post : List (ℕ × ObjectData)) (u : ℕ) (dat : ObjectData)
    (p : PhysicsProps) (tobj : SceneObject)
    (hl : l = pre ++ (u, dat) :: post)
    (hpre : ∀ e ∈ pre, e.1 ≠ u) (hpost : ∀ e ∈ post, e.1 ≠ u)
    (hphys : dat.physics = some p) (hp : p.enabled = true)
    (hfindS : findObj S.scene u = some (snapOriginal tobj)) :
    (tobj.isMeshObj = false →
      lookupBody (activateLoop l S).1.phys.bodies u =
        lookupBody S.phys.bodies u) ∧
    (tobj.isMeshObj = true → lookupBody S.phys.bodies u = none →
      ∃ b, lookupBody (activateLoop l S).1.phys.bodies u = some b ∧
        b.opts = safeguardOptions p) := by
  subst hl
  rw [activateLoop_append]
  simp only [activateLoop]
  have hfindAct : findObj (activateLoop pre S).1.scene u =
      some (snapOriginal tobj) := by
    rw [activateLoop_scene]
    exact hfindS
  constructor
  · intro hmesh
    have hnm := activateObject_nonmesh u dat (activateLoop pre S).1 p
      (snapOriginal tobj) hphys hp hfindAct hmesh
    rw [activateLoop_preserve_other post
      (activateObject u dat (activateLoop pre S).1).1 u hpost, hnm]
    exact activateLoop_preserve_other pre S u hpre
  · intro hmesh hnone
    have hnoneAct : lookupBody (activateLoop pre S).1.phys.bodies u =
        none := (activateLoop_preserve_other pre S u hpre).trans hnone
    obtain ⟨b, hb, hopts⟩ := activateObject_self u dat
      (activateLoop pre S).1 p (snapOriginal tobj) hphys hp hfindAct
      hmesh hnoneAct
    exact ⟨b, (activateLoop_preserve_other post
      (activateObject u dat (activateLoop pre S).1).1 u hpost).trans hb,
      hopts⟩

/-- C3 (amended): for a physics-enabled object with no manual collision
frames and no explicit `autoCreate`, `play()`'s main loop itself creates no
body and auto-detection never runs — but the `activateAllPhysicsBodies`
safeguard that `play()` invokes immediately afterwards creates a default
body (built from the stored `bodyType`/`mass`/`size`, independent of any
shape inference) for every such object whose scene node is a `Mesh` and
that has no body yet.  Only a non-`Mesh` (Group/GLTF) root really ends
`play()` without a body: its registry entry is exactly what it was before
`play()`. -/
theorem play_skip_policy_amended (d dc : SceneObject → ShapeInfo)
    (g : GameState) (u : ℕ) (dat : ObjectData) (p : PhysicsProps)
    (tobj : SceneObject)
    (hkeys : (g.objects.map Prod.fst).Nodup)
    (hmem : (u, dat) ∈ g.objects)
    (hphys : dat.physics = some p) (hp : p.enabled = true)
    (hframes : dat.collisionFrames = [])
    (hauto : p.autoCreate = none)
    (hfind : findObj g.scene u = some tobj) :
    (tobj.isMeshObj = false →
      lookupBody (play d dc g).1.phys.bodies u =
        lookupBody g.phys.bodies u) ∧
    (tobj.isMeshObj = true →
      lookupBody g.phys.bodies u = none →
      ∃ b, lookupBody (play d dc g).1.phys.bodies u = some b ∧
        b.opts = safeguardOptions p) := by
  obtain ⟨pre, post, hobjs, hpre, hpost⟩ :=
    keys_split g.objects u dat hkeys hmem
  have hfind0 : findObj
      ({ g with suppressCollisionFrameUpdates := true } :
        GameState).scene u = some tobj := hfind
  have hSbodies : lookupBody
      (playLoop d dc g.objects
        { g with suppressCollisionFrameUpdates := true }).1.phys.bodies u =
      lookupBody g.phys.bodies u := by
    rw [hobjs]
    exact playLoop_skip_bodies d dc _ pre post u dat p tobj hpre hpost
      hphys hp hframes hauto hfind0
  have hSscene : findObj
      (playLoop d dc g.objects
        { g with suppressCollisionFrameUpdates := true }).1.scene u =
      some (snapOriginal tobj) := by
    rw [hobjs]
    exact playLoop_snap_scene d dc _ pre post u dat p tobj hpre hpost
      hphys hp hfind0
  have hSobj : (playLoop d dc g.objects
      { g with suppressCollisionFrameUpdates := true }).1.objects =
      g.objects := playLoop_objects d dc _ _
  have hmain := activate_after_skip
    { (playLoop d dc g.objects
        { g with suppressCollisionFrameUpdates := true }).1 with
      suppressCollisionFrameUpdates := false }
    (playLoop d dc g.objects
      { g with suppressCollisionFrameUpdates := true }).1.objects
    pre post u dat p tobj (hSobj.trans hobjs) hpre hpost hphys hp hSscene
  constructor
  · intro hmesh
    simp only [play]
    exact (hmain.1 hmesh).trans hSbodies
  · intro hmesh hnone
    simp only [play]
    obtain ⟨b, hb, hopts⟩ := hmain.2 hmesh (hSbodies.trans hnone)
    exact ⟨b, hb, hopts⟩

/-- Store record for a Group/GLTF root with physics enabled but neither
frames nor `autoCreate`. -/
def groupSkipData : ObjectData := { physics := some { enabled := true } }

/-- The non-mesh scene object for `groupSkipData`. -/
def groupSkipObj : SceneObject := { uuid := 8, isMeshObj := false }

/-- Game state holding exactly the one skipped Group root. -/
def groupSkipState : GameState :=
  { objects := [(8, groupSkipData)], scene := [groupSkipObj] }

/-- C3 (witness): the amended policy applied to a one-mesh state (the
safeguard creates the default body) and to a one-group state (no body). -/
theorem play_skip_policy_amended_witness :
    (∃ b, lookupBody
        (play detectNone detectNone skipState).1.phys.bodies 3 = some b ∧
      b.opts = safeguardOptions { enabled := true }) ∧
    lookupBody
      (play detectNone detectNone groupSkipState).1.phys.bodies 8 =
      none := by
  have h1 := play_skip_policy_amended detectNone detectNone skipState 3
    skipData { enabled := true } skipObj (by decide) (by decide) rfl rfl
    rfl rfl (by decide)
  have h2 := play_skip_policy_amended detectNone detectNone groupSkipState
    8 groupSkipData { enabled := true } groupSkipObj (by decide)
    (by decide) rfl rfl rfl rfl (by decide)
  exact ⟨h1.2 rfl rfl, (h2.1 rfl).trans rfl⟩

theorem playProcessObject_events_isBody (d dc : SceneObject → ShapeInfo)
    (u : ℕ) (dat : ObjectData) (g : GameState) :
    ∀ e ∈ (playProcessObject d dc u dat g).2, e.isBody = true := by
  rcases playProcessObject_events_cases d dc u dat g with h | ⟨o, h⟩
    <;> rw [h]
  · intro e he
    cases he
  · intro e he
    rcases List.mem_cons.mp he with h1 | h1
    · rw [h1]
      rfl
    · rcases List.mem_cons.mp h1 with h2 | h2
      · rw [h2]
        rfl
      · cases h2

theorem playLoop_events_isBody (d dc : SceneObject → ShapeInfo)
    (objs : List (ℕ × ObjectData)) (g : GameState) :
    ∀ e ∈ (playLoop d dc objs g).2, e.isBody = true := by
  induction objs generalizing g with
  | nil =>
      intro e he
      cases he
  | cons hd tl ih =>
      obtain ⟨u, dat⟩ := hd
      intro e he
      simp only [playLoop] at he
      rcases List.mem_append.mp he with h1 | h1
      · exact playProcessObject_events_isBody d dc u dat g e h1
      · exact ih _ e h1

theorem activateObject_events_isBody (u : ℕ) (dat : ObjectData)
    (g : GameState) :
    ∀ e ∈ (activateObject u dat g).2, e.isBody = true := by
  rcases activateObject_events_cases u dat g with h | ⟨o, h⟩ <;> rw [h]
  · intro e he
    cases he
  · intro e he
    rcases List.mem_cons.mp he with h1 | h1
    · rw [h1]
      rfl
    · cases h1

theorem activateLoop_events_isBody (objs : List (ℕ × ObjectData))
    (g : GameState) :
    ∀ e ∈ (activateLoop objs g).2, e.isBody = true := by
  induction objs generalizing g with
  | nil =>
      intro e he
      cases he
  | cons hd tl ih =>
      obtain ⟨u, dat⟩ := hd
      intro e he
      simp only [activateLoop] at he
      rcases List.mem_append.mp he with h1 | h1
      · exact activateObject_events_isBody u dat g e h1
      · exact ih _ e h1

theorem play_events_eq (d dc : SceneObject → ShapeInfo) (g : GameState) :
    ∃ E, (play d dc g).2 =
        E ++ [Ev.setEnabled true, Ev.setPlaying true] ∧
      ∀ e ∈ E, e.isBody = true := by
  refine ⟨(playLoop d dc g.objects
      { g with suppressCollisionFrameUpdates := true }).2 ++
    (activateLoop
      ({ (playLoop d dc g.objects
          { g with suppressCollisionFrameUpdates := true }).1 with
        suppressCollisionFrameUpdates := false } : GameState).objects
      { (playLoop d dc g.objects
          { g with suppressCollisionFrameUpdates := true }).1 with
        suppressCollisionFrameUpdates := false }).2, ?_, ?_⟩
  · simp only [play, List.append_assoc]
  · intro e he
    rcases List.mem_append.mp he with h1 | h1
    · exact playLoop_events_isBody d dc _ _ e h1
    · exact activateLoop_events_isBody _ _ e h1

theorem append_flag_order (E : List Ev) (u : ℕ) (o : BodyOptions)
    (hbody : ∀ e ∈ E, e.isBody = true)
    (i j : Fin (E ++ [Ev.setEnabled true, Ev.setPlaying true]).length)
    (hi : (E ++ [Ev.setEnabled true, Ev.setPlaying true]).get i =
      Ev.addBody u o)
    (hj : (E ++ [Ev.setEnabled true, Ev.setPlaying true]).get j =
      Ev.setPlaying true) :
    (i : ℕ) < (j : ℕ) := by
  have hjlt : (j : ℕ) < E.length + 2 := by
    have := j.2
    simpa using this
  have hilt : (i : ℕ) < E.length + 2 := by
    have := i.2
    simpa using this
  have hjv : (j : ℕ) = E.length + 1 := by
    rcases Nat.lt_or_ge (j : ℕ) E.length with hlt | hge
    · exfalso
      have hg : (E ++ [Ev.setEnabled true, Ev.setPlaying true]).get j =
          E.get ⟨(j : ℕ), hlt⟩ := by
        rw [List.get_eq_getElem, List.get_eq_getElem]
        exact List.getElem_append_left hlt
      have hb := hbody _ (List.get_mem E (j : ℕ) hlt)
      rw [← hg, hj] at hb
      cases hb
    · by_cases hj1 : (j : ℕ) = E.length
      · exfalso
        have hg : (E ++ [Ev.setEnabled true, Ev.setPlaying true]).get j =
            Ev.setEnabled true := by
          rw [List.get_eq_getElem, List.getElem_append_right hge]
          simp [hj1]
        rw [hg] at hj
        cases hj
      · omega
  have hiv : (i : ℕ) < E.length := by
    rcases Nat.lt_or_ge (i : ℕ) E.length with hlt | hge
    · exact hlt
    · exfalso
      by_cases hi1 : (i : ℕ) = E.length
      · have hg : (E ++ [Ev.setEnabled true, Ev.setPlaying true]).get i =
            Ev.setEnabled true := by
          rw [List.get_eq_getElem, List.getElem_append_right hge]
          simp [hi1]
        rw [hg] at hi
        cases hi
      · have hi2 : (i : ℕ) = E.length + 1 := by omega
        have hg : (E ++ [Ev.setEnabled true, Ev.setPlaying true]).get i =
            Ev.setPlaying true := by
          rw [List.get_eq_getElem, List.getElem_append_right hge]
          simp [hi2]
        rw [hg] at hi
        cases hi
  omega

/-- C4: within `play()`, every body-creation side effect precedes the
write that flips `isPlaying` to `true` — in the ordered event trace of
`play()`, any `addBody` occurrence has a strictly smaller index than the
`setPlaying true` occurrence, so no observer of `isPlaying` can see it
`true` while a body `play()` is responsible for is still missing. -/
theorem play_bodies_before_isPlaying (d dc : SceneObject → ShapeInfo)
    (g : GameState) (u : ℕ) (o : BodyOptions)
    (i j : Fin (play d dc g).2.length)
    (hi : (play d dc g).2.get i = Ev.addBody u o)
    (hj : (play d dc g).2.get j = Ev.setPlaying true) :
    (i : ℕ) < (j : ℕ) := by
  obtain ⟨E, hE, hbody⟩ := play_events_eq d dc g
  have ei := List.get_of_eq hE i
  have ej := List.get_of_eq hE j
  have := append_flag_order E u o hbody
    (Fin.cast (by rw [hE]) i) (Fin.cast (by rw [hE]) j)
    (ei ▸ hi) (ej ▸ hj)
  simpa using this

/-- C4 (witness): in the one-mesh state, the trace is
`[addBody, setEnabled, setPlaying]`; the theorem puts the `addBody` at
index 0 before the `setPlaying true` at index 2. -/
theorem play_bodies_before_isPlaying_witness :
    (play detectNone detectNone skipState).2.get
        ⟨0, by decide⟩ =
      Ev.addBody 3 (safeguardOptions { enabled := true }) ∧
    (play detectNone detectNone skipState).2.get
        ⟨2, by decide⟩ = Ev.setPlaying true ∧
    (0 : ℕ) < 2 := by
  refine ⟨by decide, by decide, ?_⟩
  exact play_bodies_before_isPlaying detectNone detectNone skipState 3
    (safeguardOptions { enabled := true }) ⟨0, by decide⟩ ⟨2, by decide⟩
    (by decide) (by decide)

/-- Geometry of one mesh: its `position` attribute as a vertex list
(the module's `detectPrimitiveShape` reads `positions.length / 3`
vertices from it). -/
structure MeshGeom where
  verts : List Vec3
deriving DecidableEq, Repr

/-- The object handed to `autoDetectCollisionShape`: its traversed list of
non-wireframe meshes and the world-space bounding-box size computed by
`new THREE.Box3().setFromObject(object)` — an external three.js
scene-graph traversal, supplied as data (for the claims' untransformed
meshes it equals the local bounding-box size). -/
structure GeomObject where
  meshes : List MeshGeom
  worldSize : Vec3
deriving DecidableEq, Repr

/-- Local bounding box size from vertices
(`new THREE.Box3().setFromPoints(vertices).getSize(...)`); the empty case
is never hit on the analysed paths. -/
def bboxSize (verts : List Vec3) : Vec3 :=
  match verts with
  | [] => ⟨0, 0, 0⟩
  | v :: rest =>
      let mm := rest.foldl
        (fun (mm : Vec3 × Vec3) (w : Vec3) =>
          (⟨min mm.1.x w.x, min mm.1.y w.y, min mm.1.z w.z⟩,
           ⟨max mm.2.x w.x, max mm.2.y w.y, max mm.2.z w.z⟩))
        (v, v)
      ⟨mm.2.x - mm.1.x, mm.2.y - mm.1.y, mm.2.z - mm.1.z⟩

/-- The face-alignment test of one vertex inside `isBox`:
`Math.abs(Math.abs(v.c) - size.c / 2) < 0.01` on some axis. -/
def onBoxFace (size : Vec3) (v : Vec3) : Bool :=
  decide (|(|v.x| - size.x / 2)| < 1 / 100 ∨
          |(|v.y| - size.y / 2)| < 1 / 100 ∨
          |(|v.z| - size.z / 2)| < 1 / 100)

/-- `isBox`: classify as a box when the fraction of vertices on a bounding
face exceeds `0.8`. -/
def isBox (verts : List Vec3) (size : Vec3) : Bool :=
  let alignedCount := verts.countP (onBoxFace size)
  decide ((alignedCount : ℚ) / (verts.length : ℚ) > 8 / 10)

/-- `v.distanceTo(c)` with `Math.sqrt` supplied as `jsSqrt`. -/
def distanceTo (jsSqrt : ℚ → ℚ) (a b : Vec3) : ℚ :=
  jsSqrt ((a.x - b.x) ^ 2 + (a.y - b.y) ^ 2 + (a.z - b.z) ^ 2)

/-- Result record of `isSphere` (`{ isSphere, radius }`). -/
structure SphereTest where
  isSph : Bool
  sradius : ℚ
deriving DecidableEq, Repr

/-- `isSphere`: fewer than 10 vertices is never a sphere; otherwise
centroid, mean radius and the variance of the per-vertex distances, with
the 10%-of-mean-radius tolerance band `variance < threshold²`. -/
def isSphere (jsSqrt : ℚ → ℚ) (verts : List Vec3) : SphereTest :=
  if verts.length < 10 then ⟨false, 0⟩
  else
    let n : ℚ := verts.length
    let center : Vec3 :=
      ⟨(verts.map (fun v => v.x)).sum / n,
       (verts.map (fun v => v.y)).sum / n,
       (verts.map (fun v => v.z)).sum / n⟩
    let avgRadius := (verts.map (fun v => distanceTo jsSqrt v center)).sum / n
    let variance :=
      (verts.map (fun v => (distanceTo jsSqrt v center - avgRadius) ^ 2)).sum
        / n
    let threshold := avgRadius * (1 / 10)
    ⟨decide (variance < threshold ^ 2), avgRadius⟩

/-- `getCircleRadius`: fit of a vertex band to a circle in the XZ plane
(centroid, mean radius, 15% variance band). -/
def getCircleRadius (jsSqrt : ℚ → ℚ) (verts : List Vec3) : Option ℚ :=
  if verts.length < 3 then none
  else
    let n : ℚ := verts.length
    let cx := (verts.map (fun v => v.x)).sum / n
    let cz := (verts.map (fun v => v.z)).sum / n
    let avgRadius :=
      (verts.map (fun v => jsSqrt ((v.x - cx) ^ 2 + (v.z - cz) ^ 2))).sum / n
    let variance :=
      (verts.map (fun v =>
        (jsSqrt ((v.x - cx) ^ 2 + (v.z - cz) ^ 2) - avgRadius) ^ 2)).sum / n
    if variance < (avgRadius * (15 / 100)) ^ 2 then some avgRadius else none

/-- Result record of `isCylinder` (`{ isCylinder, radius }`). -/
structure CylinderTest where
  isCyl : Bool
  cradius : ℚ
deriving DecidableEq, Repr

/-- `isCylinder`: split vertices into top/bottom bands around `midY = 0`
with a 30%-of-height margin, fit each band to an XZ circle, and accept
when the two radii agree within 20% of their mean. -/
def isCylinder (jsSqrt : ℚ → ℚ) (verts : List Vec3) (size : Vec3) :
    CylinderTest :=
  if verts.length < 12 then ⟨false, 0⟩
  else
    let topVerts := verts.filter (fun v => decide (v.y > 0 + size.y * (3 / 10)))
    let bottomVerts :=
      verts.filter (fun v => decide (v.y < 0 - size.y * (3 / 10)))
    if topVerts.length < 3 ∨ bottomVerts.length < 3 then ⟨false, 0⟩
    else
      match getCircleRadius jsSqrt topVerts,
          getCircleRadius jsSqrt bottomVerts with
      | some topRadius, some bottomRadius =>
          let avgRadius := (topRadius + bottomRadius) / 2
          if |topRadius - bottomRadius| < avgRadius * (2 / 10) then
            ⟨true, avgRadius⟩
          else ⟨false, 0⟩
      | _, _ => ⟨false, 0⟩

/-- `new THREE.Vector3(...).length()` with `Math.sqrt` as `jsSqrt`. -/
def vecLength (jsSqrt : ℚ → ℚ) (v : Vec3) : ℚ :=
  jsSqrt (v.x ^ 2 + v.y ^ 2 + v.z ^ 2)

/-- `detectPrimitiveShape(geometry, worldSize)`: more than 200 vertices is
never a primitive; otherwise try box (half-extents from the world size),
then sphere (radius scaled by the world/local length ratio), then cylinder
(radius scaled by the max world/local XZ ratio, height from world size). -/
def detectPrimitiveShape (jsSqrt : ℚ → ℚ) (verts : List Vec3)
    (worldSize : Vec3) : Option ShapeInfo :=
  let vertexCount := verts.length
  if vertexCount > 200 then none
  else
    let localSize := bboxSize verts
    if isBox verts localSize then
      some { type := .box,
             size := some ⟨worldSize.x / 2, worldSize.y / 2,
                           worldSize.z / 2⟩ }
    else
      let sphereTest := isSphere jsSqrt verts
      if sphereTest.isSph then
        let scale := vecLength jsSqrt worldSize / vecLength jsSqrt localSize
        some { type := .sphere, radius := some (sphereTest.sradius * scale) }
      else
        let cylinderTest := isCylinder jsSqrt verts localSize
        if cylinderTest.isCyl then
          some { type := .cylinder,
                 radius := some (cylinderTest.cradius *
                   max (worldSize.x / localSize.x)
                     (worldSize.z / localSize.z)),
                 height := some worldSize.y }
        else none

/-- `autoDetectCollisionShape(object)`: default small box when the object
has no meshes; otherwise primitive detection on the first mesh, then the
convex hull / trimesh split at 500 vertices. -/
def autoDetectCollisionShape (jsSqrt : ℚ → ℚ) (obj : GeomObject) :
    ShapeInfo :=
  match obj.meshes with
  | [] => { type := .box, size := some ⟨1 / 2, 1 / 2, 1 / 2⟩ }
  | mainMesh :: _ =>
      match detectPrimitiveShape jsSqrt mainMesh.verts obj.worldSize with
      | some s =>
          { type := s.type, size := s.size, radius := s.radius,
            height := s.height }
      | none =>
          let vertexCount := mainMesh.verts.length
          if vertexCount < 500 then
            { type := .convex, meshRef := true,
              size := some ⟨obj.worldSize.x / 2, obj.worldSize.y / 2,
                            obj.worldSize.z / 2⟩ }
          else
            { type := .trimesh, meshRef := true,
              size := some ⟨obj.worldSize.x / 2, obj.worldSize.y / 2,
                            obj.worldSize.z / 2⟩ }

theorem autoDetect_large_trimesh (jsSqrt : ℚ → ℚ) (verts : List Vec3)
    (ws : Vec3) (h : 500 ≤ verts.length) :
    autoDetectCollisionShape jsSqrt ⟨[⟨verts⟩], ws⟩ =
      { type := .trimesh, meshRef := true,
        size := some ⟨ws.x / 2, ws.y / 2, ws.z / 2⟩ } := by
  unfold autoDetectCollisionShape detectPrimitiveShape
  have h200 : verts.length > 200 := by omega
  have h500 : ¬ (verts.length < 500) := by omega
  simp [h200, h500]

/-- Vertex list of the `position` attribute of a three.js
`BoxGeometry(1, 1, 1)` unit cube: four corner vertices per face, six
faces. -/
def cubeVerts : List Vec3 :=
  [⟨1/2, 1/2, 1/2⟩, ⟨1/2, 1/2, -(1/2)⟩,
   ⟨1/2, -(1/2), 1/2⟩, ⟨1/2, -(1/2), -(1/2)⟩,
   ⟨-(1/2), 1/2, -(1/2)⟩, ⟨-(1/2), 1/2, 1/2⟩,
   ⟨-(1/2), -(1/2), -(1/2)⟩, ⟨-(1/2), -(1/2), 1/2⟩,
   ⟨-(1/2), 1/2, -(1/2)⟩, ⟨1/2, 1/2, -(1/2)⟩,
   ⟨-(1/2), 1/2, 1/2⟩, ⟨1/2, 1/2, 1/2⟩,
   ⟨-(1/2), -(1/2), 1/2⟩, ⟨1/2, -(1/2), 1/2⟩,
   ⟨-(1/2), -(1/2), -(1/2)⟩, ⟨1/2, -(1/2), -(1/2)⟩,
   ⟨-(1/2), 1/2, 1/2⟩, ⟨1/2, 1/2, 1/2⟩,
   ⟨-(1/2), -(1/2), 1/2⟩, ⟨1/2, -(1/2), 1/2⟩,
   ⟨1/2, 1/2, -(1/2)⟩, ⟨-(1/2), 1/2, -(1/2)⟩,
   ⟨1/2, -(1/2), -(1/2)⟩, ⟨-(1/2), -(1/2), -(1/2)⟩]

/-- The unit cube mesh as handed to auto-detection (world bounding box
`(1,1,1)`). -/
def unitCubeMesh : GeomObject :=
  { meshes := [⟨cubeVerts⟩], worldSize := ⟨1, 1, 1⟩ }

theorem cube_bboxSize : bboxSize cubeVerts = ⟨1, 1, 1⟩ := by
  norm_num [bboxSize, cubeVerts]

theorem cube_isBox : isBox cubeVerts ⟨1, 1, 1⟩ = true := by
  have hall : ∀ v ∈ cubeVerts, onBoxFace ⟨1, 1, 1⟩ v = true := by
    intro v hv
    fin_cases hv <;> norm_num [onBoxFace, abs_of_nonneg]
  unfold isBox
  rw [List.countP_eq_length.mpr hall,
    show cubeVerts.length = 24 from rfl]
  norm_num

theorem cube_autoDetect (jsSqrt : ℚ → ℚ) :
    autoDetectCollisionShape jsSqrt unitCubeMesh =
      { type := .box, size := some ⟨1 / 2, 1 / 2, 1 / 2⟩ } := by
  have hdet : detectPrimitiveShape jsSqrt cubeVerts ⟨1, 1, 1⟩ =
      some { type := .box, size := some ⟨1 / 2, 1 / 2, 1 / 2⟩ } := by
    unfold detectPrimitiveShape
    rw [if_neg (by decide)]
    simp only [cube_bboxSize, cube_isBox, if_true]
  unfold autoDetectCollisionShape unitCubeMesh
  simp only [hdet]

/-- Modelled from the spec: the claim's "unit-radius sphere mesh with
32×16 segments".  three.js `SphereGeometry(1, 32, 16)` — external library
geometry, not in the repository — produces a `(32+1) × (16+1) = 561`
vertex grid.  `autoDetectCollisionShape` decides this input before reading
any coordinate (`detectPrimitiveShape` rejects at `vertexCount > 200`, and
`561 ≥ 500` selects trimesh — `autoDetect_large_trimesh` proves this for
EVERY 561-vertex coordinate list), so the model keeps the exact vertex
count and world bounding-box size `(2,2,2)` and uses placeholder
coordinates. -/
def sphereMesh32x16 : GeomObject :=
  { meshes := [⟨List.replicate 561 ⟨0, 0, 0⟩⟩], worldSize := ⟨2, 2, 2⟩ }

/-- C8 (counterexample): the unit-radius 32×16-segment sphere mesh has 561
vertices; primitive detection is capped at 200 vertices and the trimesh
cutoff is 500, so auto-detection classifies it as a trimesh, NOT as a
sphere of radius ≈ 1. -/
theorem sphere32x16_classified_trimesh_cex :
    (autoDetectCollisionShape (fun _ => 0) sphereMesh32x16).type =
      .trimesh ∧
    ¬ (autoDetectCollisionShape (fun _ => 0) sphereMesh32x16).type =
      .sphere := by
  have h := autoDetect_large_trimesh (fun _ => 0)
    (List.replicate 561 ⟨0, 0, 0⟩) ⟨2, 2, 2⟩
    (by rw [List.length_replicate]; norm_num)
  have hm : sphereMesh32x16 =
      ⟨[⟨List.replicate 561 ⟨0, 0, 0⟩⟩], ⟨2, 2, 2⟩⟩ := rfl
  rw [hm, h]
  exact ⟨rfl, by simp⟩

/-- C8 (amended): a unit cube mesh is classified as a box with
half-extents `(0.5, 0.5, 0.5)`, and any mesh with 600 or more vertices is
classified as a trimesh; but the unit-radius sphere mesh with 32×16
segments has 561 vertices — above both the 200-vertex primitive-detection
cap and the 500-vertex trimesh cutoff — so it is classified as a trimesh,
not as a sphere (sphere classification can only apply to meshes of at
most 200 vertices). -/
theorem shape_classification_amended (jsSqrt : ℚ → ℚ) (verts : List Vec3)
    (ws : Vec3) (h600 : 600 ≤ verts.length) :
    autoDetectCollisionShape jsSqrt unitCubeMesh =
      { type := .box, size := some ⟨1 / 2, 1 / 2, 1 / 2⟩ } ∧
    (autoDetectCollisionShape jsSqrt sphereMesh32x16).type = .trimesh ∧
    (autoDetectCollisionShape jsSqrt ⟨[⟨verts⟩], ws⟩).type = .trimesh := by
  refine ⟨cube_autoDetect jsSqrt, ?_, ?_⟩
  · have hm : sphereMesh32x16 =
        ⟨[⟨List.replicate 561 ⟨0, 0, 0⟩⟩], ⟨2, 2, 2⟩⟩ := rfl
    rw [hm, autoDetect_large_trimesh jsSqrt _ _
      (by rw [List.length_replicate]; norm_num)]
  · rw [autoDetect_large_trimesh jsSqrt verts ws (by omega)]

/-- C8 (witness): the amended classification applied to a concrete
600-vertex mesh. -/
theorem shape_classification_amended_witness :
    autoDetectCollisionShape (fun _ => 0) unitCubeMesh =
      { type := .box, size := some ⟨1 / 2, 1 / 2, 1 / 2⟩ } ∧
    (autoDetectCollisionShape (fun _ => 0)
      ⟨[⟨List.replicate 600 ⟨0, 0, 0⟩⟩], ⟨4, 4, 4⟩⟩).type = .trimesh := by
  have h := shape_classification_amended (fun _ => 0)
    (List.replicate 600 ⟨0, 0, 0⟩) ⟨4, 4, 4⟩
    (by rw [List.length_replicate])
  exact ⟨h.1, h.2.2⟩

/-- Per-tick snapshot of the controller's pressed keys
(`keysRef.current`). -/
structure Keys where
  w : Bool := false
  a : Bool := false
  s : Bool := false
  d : Bool := false
  shift : Bool := false
  space : Bool := false
deriving DecidableEq, Repr

/-- The all-released key state. -/
def Keys.none : Keys := {}

/-- Character-controller state: the player's visual transform (position
and Y facing), the owned physics body's position and velocity, and the
`userData.offset` (feet-to-center vector) attached at body creation. -/
structure CharState where
  playerPos : Vec3
  playerRotY : ℚ := 0
  bodyPos : Vec3
  bodyVel : Vec3 := ⟨0, 0, 0⟩
  bodyOffset : Option Vec3 := none
deriving DecidableEq, Repr

/-- One invocation of `AdvancedCharacterController`'s `update(delta)` in
the physics-body branch:
1. movement direction from WASD, normalized
   (`Vector2.length`/`normalize`, `Math.sqrt` as `jsSqrt`), speed `8` with
   shift held, else `5`;
2. camera-yaw-relative `moveX`/`moveZ` (`Math.sin`/`Math.cos` as
   `jsSin`/`jsCos`) applied DIRECTLY to the visual X/Z;
3. facing lerped toward `Math.atan2(moveX, moveZ)` (as `jsAtan2`) with
   factor `0.15` when there is input;
4. body X/Z synced to the visual, body Y overwritten with
   `player.y + offset.y` when a `userData.offset` exists, horizontal body
   velocity zeroed, and a jump writing `velocity.y = 6` when grounded with
   space pressed (the controller also clears the space key, an input-state
   effect outside this per-tick model);
5. player Y read back from the body, minus the offset when present.
The grounded flag (a scene raycast) is an external per-tick input. -/
def ctrlUpdate (jsSin jsCos jsSqrt : ℚ → ℚ) (jsAtan2 : ℚ → ℚ → ℚ)
    (delta : ℚ) (keys : Keys) (yaw : ℚ) (grounded : Bool)
    (st : CharState) : CharState :=
  let mdY : ℚ := (if keys.w then 1 else 0) + (if keys.s then -1 else 0)
  let mdX : ℚ := (if keys.d then 1 else 0) + (if keys.a then -1 else 0)
  let len := jsSqrt (mdX ^ 2 + mdY ^ 2)
  let mdX := if len > 0 then mdX / len else mdX
  let mdY := if len > 0 then mdY / len else mdY
  let speed : ℚ := if keys.shift then 8 else 5
  let moveX := (jsSin yaw * mdY + jsCos yaw * mdX) * speed * delta
  let moveZ := (jsCos yaw * mdY - jsSin yaw * mdX) * speed * delta
  let ppos1 : Vec3 :=
    ⟨st.playerPos.x + moveX, st.playerPos.y, st.playerPos.z + moveZ⟩
  let rotY := if len > 0 then
      st.playerRotY + (jsAtan2 moveX moveZ - st.playerRotY) * (15 / 100)
    else st.playerRotY
  let bpos1 : Vec3 := ⟨ppos1.x, st.bodyPos.y, ppos1.z⟩
  let bpos2 : Vec3 :=
    match st.bodyOffset with
    | some off => ⟨bpos1.x, ppos1.y + off.y, bpos1.z⟩
    | none => bpos1
  let bvel1 : Vec3 := ⟨0, st.bodyVel.y, 0⟩
  let bvel2 : Vec3 :=
    if keys.space ∧ grounded then ⟨bvel1.x, 6, bvel1.z⟩ else bvel1
  let ppos2 : Vec3 :=
    match st.bodyOffset with
    | some off => ⟨ppos1.x, bpos2.y - off.y, ppos1.z⟩
    | none => ⟨ppos1.x, bpos2.y, ppos1.z⟩
  { playerPos := ppos2, playerRotY := rotY, bodyPos := bpos2,
    bodyVel := bvel2, bodyOffset := st.bodyOffset }

/-- Modelled from the spec: the external rigid-body simulator (cannon-es,
outside the repository) integrates gravity on the character's dynamic body
each world step, semi-implicit Euler: `v.y += g·dt; p.y += v.y·dt`. -/
def gravityStep (gAcc delta : ℚ) (st : CharState) : CharState :=
  let vy := st.bodyVel.y + gAcc * delta
  { st with
      bodyVel := ⟨st.bodyVel.x, vy, st.bodyVel.z⟩
      bodyPos := ⟨st.bodyPos.x, st.bodyPos.y + vy * delta, st.bodyPos.z⟩ }

/-- One simulated frame: the controller tick runs, then the simulator
integrates gravity (the controller's direct transform writes precede the
next simulator step, per the frame-ordering contract of the loop). -/
def freefallFrame (jsSin jsCos jsSqrt : ℚ → ℚ) (jsAtan2 : ℚ → ℚ → ℚ)
    (gAcc delta : ℚ) (keys : Keys) (yaw : ℚ) (grounded : Bool)
    (st : CharState) : CharState :=
  gravityStep gAcc delta
    (ctrlUpdate jsSin jsCos jsSqrt jsAtan2 delta keys yaw grounded st)

/-- Iterated frames. -/
def freefallIter (jsSin jsCos jsSqrt : ℚ → ℚ) (jsAtan2 : ℚ → ℚ → ℚ)
    (gAcc delta : ℚ) (keys : Keys) (yaw : ℚ) (grounded : Bool) :
    ℕ → CharState → CharState
  | 0, st => st
  | n + 1, st =>
      freefallIter jsSin jsCos jsSqrt jsAtan2 gAcc delta keys yaw grounded
        n (freefallFrame jsSin jsCos jsSqrt jsAtan2 gAcc delta keys yaw
            grounded st)

theorem freefallFrame_noInput (jsSin jsCos jsSqrt : ℚ → ℚ)
    (jsAtan2 : ℚ → ℚ → ℚ) (gAcc delta yaw : ℚ) (st : CharState)
    (off : Vec3) (hoff : st.bodyOffset = some off) :
    (freefallFrame jsSin jsCos jsSqrt jsAtan2 gAcc delta Keys.none yaw
      false st).playerPos = st.playerPos ∧
    (freefallFrame jsSin jsCos jsSqrt jsAtan2 gAcc delta Keys.none yaw
      false st).bodyOffset = some off ∧
    (freefallFrame jsSin jsCos jsSqrt jsAtan2 gAcc delta Keys.none yaw
      false st).bodyVel.y = st.bodyVel.y + gAcc * delta := by
  refine ⟨?_, ?_, ?_⟩ <;>
    simp [freefallFrame, gravityStep, ctrlUpdate, Keys.none, hoff]

theorem ctrlUpdate_noInput_sync (jsSin jsCos jsSqrt : ℚ → ℚ)
    (jsAtan2 : ℚ → ℚ → ℚ) (delta yaw : ℚ) (st : CharState) :
    (ctrlUpdate jsSin jsCos jsSqrt jsAtan2 delta Keys.none yaw false
      st).bodyPos.x =
      (ctrlUpdate jsSin jsCos jsSqrt jsAtan2 delta Keys.none yaw false
        st).playerPos.x ∧
    (ctrlUpdate jsSin jsCos jsSqrt jsAtan2 delta Keys.none yaw false
      st).bodyPos.z =
      (ctrlUpdate jsSin jsCos jsSqrt jsAtan2 delta Keys.none yaw false
        st).playerPos.z ∧
    (ctrlUpdate jsSin jsCos jsSqrt jsAtan2 delta Keys.none yaw false
      st).bodyVel.x = 0 ∧
    (ctrlUpdate jsSin jsCos jsSqrt jsAtan2 delta Keys.none yaw false
      st).bodyVel.z = 0 := by
  unfold ctrlUpdate
  simp only [Keys.none]
  norm_num
  cases hb : st.bodyOffset <;> simp

theorem freefallIter_noInput (jsSin jsCos jsSqrt : ℚ → ℚ)
    (jsAtan2 : ℚ → ℚ → ℚ) (gAcc delta yaw : ℚ) (off : Vec3) (n : ℕ)
    (st : CharState) (hoff : st.bodyOffset = some off) :
    (freefallIter jsSin jsCos jsSqrt jsAtan2 gAcc delta Keys.none yaw
      false n st).playerPos = st.playerPos ∧
    (freefallIter jsSin jsCos jsSqrt jsAtan2 gAcc delta Keys.none yaw
      false n st).bodyVel.y = st.bodyVel.y + n * (gAcc * delta) := by
  induction n generalizing st with
  | zero => simp [freefallIter]
  | succ m ih =>
      have hframe := freefallFrame_noInput jsSin jsCos jsSqrt jsAtan2
        gAcc delta yaw st off hoff
      have hrec := ih (freefallFrame jsSin jsCos jsSqrt jsAtan2 gAcc
        delta Keys.none yaw false st) hframe.2.1
      simp only [freefallIter]
      refine ⟨hrec.1.trans hframe.1, ?_⟩
      rw [hrec.2, hframe.2.2]
      push_cast
      ring

/-- C9: during free fall with no movement input, the character
controller's horizontal behaviour matches the claim (visual X/Z
unchanged, body horizontal position synced to the visual, horizontal body
velocity zeroed) — but the vertical position does NOT decrease: because
`update` overwrites `body.position.y` with `player.y + offset.y` BEFORE
reading it back in the same tick, the player's position (including Y) is
exactly constant over any number of controller-plus-gravity frames, while
gravity only accumulates in the body's velocity. -/
theorem freefall_vertical_frozen (jsSin jsCos jsSqrt : ℚ → ℚ)
    (jsAtan2 : ℚ → ℚ → ℚ) (gAcc delta yaw : ℚ) (st : CharState)
    (off : Vec3) (hoff : st.bodyOffset = some off) (n : ℕ) :
    (freefallIter jsSin jsCos jsSqrt jsAtan2 gAcc delta Keys.none yaw
      false n st).playerPos = st.playerPos ∧
    (freefallIter jsSin jsCos jsSqrt jsAtan2 gAcc delta Keys.none yaw
      false n st).bodyVel.y = st.bodyVel.y + n * (gAcc * delta) ∧
    (ctrlUpdate jsSin jsCos jsSqrt jsAtan2 delta Keys.none yaw false
      st).bodyVel.x = 0 ∧
    (ctrlUpdate jsSin jsCos jsSqrt jsAtan2 delta Keys.none yaw false
      st).bodyVel.z = 0 ∧
    (ctrlUpdate jsSin jsCos jsSqrt jsAtan2 delta Keys.none yaw false
      st).bodyPos.x =
      (ctrlUpdate jsSin jsCos jsSqrt jsAtan2 delta Keys.none yaw false
        st).playerPos.x := by
  have hiter := freefallIter_noInput jsSin jsCos jsSqrt jsAtan2 gAcc
    delta yaw off n st hoff
  have hsync := ctrlUpdate_noInput_sync jsSin jsCos jsSqrt jsAtan2 delta
    yaw st
  exact ⟨hiter.1, hiter.2, hsync.2.2.1, hsync.2.2.2, hsync.1⟩

/-- Concrete character state: player at (0,5,0) with a capsule body whose
feet-to-center offset is (0, 0.9, 0). -/
def c9St : CharState :=
  { playerPos := ⟨0, 5, 0⟩, bodyPos := ⟨0, 59/10, 0⟩,
    bodyVel := ⟨0, 0, 0⟩, bodyOffset := some ⟨0, 9/10, 0⟩ }

/-- Witness: one second of 60 fps free-fall frames under gravity
-9.81 leaves the player exactly at (0,5,0) while the body's vertical
velocity has reached -9.81. -/
theorem freefall_vertical_frozen_witness :
    (freefallIter (fun _ => 0) (fun _ => 1) (fun q => q) (fun _ _ => 0)
      (-981/100) (1/60) Keys.none 0 false 60 c9St).playerPos
      = ⟨0, 5, 0⟩ ∧
    (freefallIter (fun _ => 0) (fun _ => 1) (fun q => q) (fun _ _ => 0)
      (-981/100) (1/60) Keys.none 0 false 60 c9St).bodyVel.y
      = -981/100 := by
  have h := freefall_vertical_frozen (fun _ => 0) (fun _ => 1)
    (fun q => q) (fun _ _ => 0) (-981/100) (1/60) 0 c9St ⟨0, 9/10, 0⟩
    rfl 60
  refine ⟨h.1, ?_⟩
  rw [h.2.1]
  norm_num [c9St]

/-- JavaScript `x || 0` on an optional number: both a missing value and a
stored `0` give `0`, any other number passes through. -/
def jsOrZero : Option ℚ → ℚ
  | none => 0
  | some m => m

/-- JavaScript `x || 0.5` on an optional number: a missing value or a
stored `0` is replaced by `0.5`. -/
def jsOrHalf : Option ℚ → ℚ
  | none => 1/2
  | some m => if m = 0 then 1/2 else m

/-- A compound child shape: `CANNON.Box` (half-extents) or
`CANNON.Sphere` (radius). -/
inductive ChildShape where
  | box (halfExtents : Vec3)
  | sphere (radius : ℚ)
deriving DecidableEq, Repr

/-- The child shape `addBody` builds for one collision frame of a
compound body: a box frame's stored full size (default 1 per axis) is
scaled by the object's world scale componentwise and halved; a sphere
frame's radius (default 0.5) is scaled by the maximum world-scale
component; a capsule frame is approximated by a sphere whose radius is
scaled by the maximum of the X and Z world-scale components; any other
frame type yields a unit box. -/
def frameChildShape (frame : CollisionFrame) (worldScale : Vec3) :
    ChildShape :=
  match frame.ftype with
  | .box =>
      .box ⟨jsOrOne (frame.fsize.map Vec3.x) * worldScale.x / 2,
            jsOrOne (frame.fsize.map Vec3.y) * worldScale.y / 2,
            jsOrOne (frame.fsize.map Vec3.z) * worldScale.z / 2⟩
  | .sphere =>
      .sphere (jsOrHalf frame.fradius *
        max worldScale.x (max worldScale.y worldScale.z))
  | .capsule =>
      .sphere (jsOrHalf frame.fradius * max worldScale.x worldScale.z)
  | .other => .box ⟨1/2, 1/2, 1/2⟩

/-- The child shape's local offset: the frame's stored position (default
0 per axis) scaled componentwise by the world scale. -/
def frameChildPos (frame : CollisionFrame) (worldScale : Vec3) : Vec3 :=
  ⟨jsOrZero (frame.fposition.map Vec3.x) * worldScale.x,
   jsOrZero (frame.fposition.map Vec3.y) * worldScale.y,
   jsOrZero (frame.fposition.map Vec3.z) * worldScale.z⟩

/-- `CANNON.Quaternion.setFromAxisAngle(axis, angle)`:
`(axis·sin(angle/2), cos(angle/2))`; `Math.sin`/`Math.cos` are passed in
as `jsSin`/`jsCos`. -/
def setFromAxisAngle (jsSin jsCos : ℚ → ℚ) (ax ay az angle : ℚ) :
    Quat4 :=
  ⟨ax * jsSin (angle / 2), ay * jsSin (angle / 2),
   az * jsSin (angle / 2), jsCos (angle / 2)⟩

/-- `CANNON.Quaternion.mult(q)`: the Hamilton product, returned as a NEW
quaternion (the receiver is not modified). -/
def Quat4.mult (a b : Quat4) : Quat4 :=
  ⟨a.qx * b.qw + a.qw * b.qx + a.qy * b.qz - a.qz * b.qy,
   a.qy * b.qw + a.qw * b.qy + a.qz * b.qx - a.qx * b.qz,
   a.qz * b.qw + a.qw * b.qz + a.qx * b.qy - a.qy * b.qx,
   a.qw * b.qw - a.qx * b.qx - a.qy * b.qy - a.qz * b.qz⟩

/-- The orientation `addBody` passes to `body.addShape` for one collision
frame: when the frame has a rotation, `childQuat` is set (in place) from
the X-axis rotation in radians, and the statement
`childQuat.mult(yQuat).mult(zQuat);` computes the X·Y·Z composition but
DISCARDS it (`mult` returns a new quaternion), so `childQuat` keeps only
the X-axis rotation. `Math.PI` is passed in as `jsPi`. -/
def frameChildQuat (jsSin jsCos : ℚ → ℚ) (jsPi : ℚ)
    (rotation : Option Vec3) : Quat4 :=
  match rotation with
  | none => Quat4.identity
  | some r =>
      let childQuat :=
        setFromAxisAngle jsSin jsCos 1 0 0 (r.x * jsPi / 180)
      let yQuat := setFromAxisAngle jsSin jsCos 0 1 0 (r.y * jsPi / 180)
      let zQuat := setFromAxisAngle jsSin jsCos 0 0 1 (r.z * jsPi / 180)
      let _discarded := (childQuat.mult yQuat).mult zQuat
      childQuat

/-- Modelled from the spec: the child orientation as the intrinsic X·Y·Z
composition of the per-axis rotations converted degrees→radians. -/
def specFrameChildQuat (jsSin jsCos : ℚ → ℚ) (jsPi : ℚ)
    (rotation : Option Vec3) : Quat4 :=
  match rotation with
  | none => Quat4.identity
  | some r =>
      ((setFromAxisAngle jsSin jsCos 1 0 0 (r.x * jsPi / 180)).mult
        (setFromAxisAngle jsSin jsCos 0 1 0 (r.y * jsPi / 180))).mult
        (setFromAxisAngle jsSin jsCos 0 0 1 (r.z * jsPi / 180))

/-- The claim's example frame: a box of local size (1,1,1). -/
def boxFrame111 : CollisionFrame :=
  { ftype := .box, fsize := some ⟨1, 1, 1⟩,
    fposition := some ⟨3, 1, 1⟩, frotation := some ⟨0, 90, 0⟩ }

/-- C5: for a compound child frame the size and offset parts of the claim
hold — a box frame of local size (1,1,1) on an object scaled (2,1,1)
yields world half-extents (1, 1/2, 1/2), and the local offset is the
frame position scaled componentwise — but the orientation part fails:
for the frame rotation (0°, 90°, 0°) the attached child orientation is
the identity quaternion (only the X-axis rotation, here 0°, survives,
because the X·Y·Z composition is computed and discarded), whereas the
specified intrinsic X·Y·Z composition is the 90° Y rotation, whose Y
component sin(45°) is nonzero. -/
theorem compound_child_orientation_bug (jsSin jsCos : ℚ → ℚ) (jsPi : ℚ)
    (hs0 : jsSin 0 = 0) (hc0 : jsCos 0 = 1)
    (hsy : jsSin (jsPi / 4) ≠ 0) :
    frameChildShape boxFrame111 ⟨2, 1, 1⟩ = .box ⟨1, 1/2, 1/2⟩ ∧
    frameChildPos boxFrame111 ⟨2, 1, 1⟩ = ⟨6, 1, 1⟩ ∧
    frameChildQuat jsSin jsCos jsPi boxFrame111.frotation =
      Quat4.identity ∧
    specFrameChildQuat jsSin jsCos jsPi boxFrame111.frotation ≠
      frameChildQuat jsSin jsCos jsPi boxFrame111.frotation := by
  have harg0 : (0 : ℚ) * jsPi / 180 / 2 = 0 := by ring
  have hargy : (90 : ℚ) * jsPi / 180 / 2 = jsPi / 4 := by ring
  have hq : frameChildQuat jsSin jsCos jsPi boxFrame111.frotation =
      Quat4.identity := by
    simp only [boxFrame111, frameChildQuat, setFromAxisAngle, harg0,
      hs0, hc0, Quat4.identity]
    norm_num
  refine ⟨?_, ?_, hq, ?_⟩
  · simp only [frameChildShape, boxFrame111, jsOrOne, Option.map]
    norm_num
  · simp only [frameChildPos, boxFrame111, jsOrZero, Option.map]
    norm_num
  · rw [hq]
    simp only [boxFrame111, specFrameChildQuat, setFromAxisAngle, harg0,
      hargy, hs0, hc0, Quat4.mult, Quat4.identity]
    intro h
    have hy := congrArg Quat4.qy h
    simp only [] at hy
    apply hsy
    nlinarith [hy]

/-- Witness for the C5 theorem at concrete trig stand-ins (any functions
with sin 0 = 0, cos 0 = 1 and a nonzero value at the quarter-angle
qualify). -/
theorem compound_child_orientation_bug_witness :
    frameChildShape boxFrame111 ⟨2, 1, 1⟩ = .box ⟨1, 1/2, 1/2⟩ ∧
    frameChildPos boxFrame111 ⟨2, 1, 1⟩ = ⟨6, 1, 1⟩ ∧
    frameChildQuat (fun q => if q = 0 then 0 else 1) (fun _ => 1) 4
      boxFrame111.frotation = Quat4.identity ∧
    specFrameChildQuat (fun q => if q = 0 then 0 else 1) (fun _ => 1) 4
      boxFrame111.frotation ≠
      frameChildQuat (fun q => if q = 0 then 0 else 1) (fun _ => 1) 4
        boxFrame111.frotation :=
  compound_child_orientation_bug (fun q => if q = 0 then 0 else 1)
    (fun _ => 1) 4 (by norm_num) rfl (by norm_num)
